import Mathlib

/-!
# Verification of `gziface` SceneManager (`src/gziface/src/SceneManager.cc`)

A shallow embedding of the SceneManager: the three entity-registry maps
(visuals, lights, sensors), the scene-graph collaborator (node, geometry and
material stores with an allocator and an event log for the hierarchy/destroy
calls), the geometry resolver (`LoadGeometry`), the material resolver
(`LoadMaterial`) and the creation/removal operations.  Scalars are exact
rationals; external entity ids are naturals; node / geometry / material
handles are naturals allocated by a counter, so "reference identity" is
equality of handles.
-/

/-- 3D vector with rational components (models `ignition::math::Vector3d`). -/
structure Vec3 where
  x : ℚ
  y : ℚ
  z : ℚ
deriving DecidableEq, Repr

def v3zero : Vec3 := ⟨0, 0, 0⟩

def v3one : Vec3 := ⟨1, 1, 1⟩

def unitX : Vec3 := ⟨1, 0, 0⟩

def unitY : Vec3 := ⟨0, 1, 0⟩

def unitZ : Vec3 := ⟨0, 0, 1⟩

def v3dot (a b : Vec3) : ℚ := a.x * b.x + a.y * b.y + a.z * b.z

def v3add (a b : Vec3) : Vec3 := ⟨a.x + b.x, a.y + b.y, a.z + b.z⟩

def v3scale (c : ℚ) (v : Vec3) : Vec3 := ⟨c * v.x, c * v.y, c * v.z⟩

/-- Quaternion with rational components.  Used as a *homogeneous*
representative of a rotation: a nonzero quaternion and any positive scalar
multiple of it denote the same rotation, so the unit-normalization the C++
library performs can be elided without changing the rotation denoted. -/
structure Quat where
  w : ℚ
  x : ℚ
  y : ℚ
  z : ℚ
deriving DecidableEq, Repr

def qidentity : Quat := ⟨1, 0, 0, 0⟩

def qmul (a b : Quat) : Quat :=
  ⟨a.w * b.w - a.x * b.x - a.y * b.y - a.z * b.z,
   a.w * b.x + a.x * b.w + a.y * b.z - a.z * b.y,
   a.w * b.y - a.x * b.z + a.y * b.w + a.z * b.x,
   a.w * b.z + a.x * b.y - a.y * b.x + a.z * b.w⟩

def qconj (q : Quat) : Quat := ⟨q.w, -q.x, -q.y, -q.z⟩

def qnormSq (q : Quat) : ℚ := q.w * q.w + q.x * q.x + q.y * q.y + q.z * q.z

/-- Rotate a vector by a (homogeneous) quaternion: the vector part of
`q ⊗ (0,v) ⊗ q⋆`, divided by `‖q‖²` (models `Quaterniond::RotateVector`,
which conjugates by a unit quaternion; dividing by the squared norm makes
the action invariant under positive rescaling of `q`). -/
def quatRotate (q : Quat) (v : Vec3) : Vec3 :=
  let t := qmul (qmul q ⟨0, v.x, v.y, v.z⟩) (qconj q)
  ⟨t.x / qnormSq q, t.y / qnormSq q, t.z / qnormSq q⟩

/-- Pose: position plus orientation (models `ignition::math::Pose3d`). -/
structure Pose where
  pos : Vec3
  rot : Quat
deriving DecidableEq, Repr

/-- `math::Pose3d::Zero` (identity pose). -/
def poseZero : Pose := ⟨v3zero, qidentity⟩

/-- Modelled from the spec: pose composition (`math::Pose3d::operator*`,
in the ign-math library, outside this repository): rotate-then-translate. -/
def poseMul (a b : Pose) : Pose :=
  ⟨v3add a.pos (quatRotate a.rot b.pos), qmul a.rot b.rot⟩

/-- The comparison `localPose != math::Pose3d::Zero` on our homogeneous
representation: the position is the origin and the quaternion denotes the
identity rotation with a positive scalar part (the library keeps quaternions
produced by `From2Axes` normalized with non-negative `w`, where the identity
is exactly `(1,0,0,0)`). -/
def isZeroPose (p : Pose) : Bool :=
  decide (p.pos = v3zero ∧ p.rot.x = 0 ∧ p.rot.y = 0 ∧ p.rot.z = 0 ∧ 0 < p.rot.w)

/-- Rational square root, exact on perfect squares of naturals over naturals
(used only through `v3normalized`; theorems about normals are stated at
unit length, where the argument is `1`). -/
def ratSqrt (q : ℚ) : ℚ := (Nat.sqrt q.num.natAbs : ℚ) / (Nat.sqrt q.den : ℚ)

/-- Modelled from the spec: vector normalization (`Vector3d::Normalized`, in
the ign-math library, outside this repository).  Exact whenever the squared
length is a perfect square of a rational; every theorem below uses it at
unit-length normals, where it is the identity. -/
def v3normalized (v : Vec3) : Vec3 :=
  if v3dot v v = 0 then v else v3scale (1 / ratSqrt (v3dot v v)) v

/-- Modelled from the spec: the corrective rotation for a plane normal — "a
rotation mapping +Z to the shape's normal vector (normalized)".  The source
obtains it from `Quaterniond::From2Axes(UnitZ, normal.Normalized())` in the
ign-math library, outside this repository; for a unit second argument that
library computes the quaternion `(1 + z·v, z × v)` and normalizes it (our
representation is homogeneous, so the final normalization is dropped), and
takes a half-turn about an axis orthogonal to +Z in the antiparallel case
(exact arithmetic replaces its epsilon test). -/
def from2AxesZ (v : Vec3) : Quat :=
  if 1 + v.z ≤ 0 then ⟨0, 1, 0, 0⟩ else ⟨1 + v.z, -v.y, v.x, 0⟩

/-- RGBA color (models `ignition::math::Color`). -/
structure Color where
  r : ℚ
  g : ℚ
  b : ℚ
  a : ℚ
deriving DecidableEq, Repr

/-- A three-argument color setter such as `SetAmbient(0.3, 0.3, 0.3)`
(alpha defaults to 1). -/
def mkColor3 (r g b : ℚ) : Color := ⟨r, g, b, 1⟩

def colorBlack : Color := ⟨0, 0, 0, 1⟩

/-- `sdf::Geometry`: a tagged shape description.  `unsupported` stands for
every `sdf::GeometryType` the source does not handle (EMPTY, HEIGHTMAP, …). -/
inductive GeomDesc where
  | box (size : Vec3)
  | cylinder (radius length : ℚ)
  | plane (sizeX sizeY : ℚ) (normal : Vec3)
  | sphere (radius : ℚ)
  | mesh (uri : String) (scale : Vec3)
  | unsupported
deriving DecidableEq, Repr

/-- `_visual.Geom()->Type() == sdf::GeometryType::MESH`. -/
def GeomDesc.isMesh : GeomDesc → Bool
  | .mesh _ _ => true
  | _ => false

/-- The kind of renderable primitive a geometry object is. -/
inductive ShapeKind where
  | box
  | cylinder
  | plane
  | sphere
  | mesh
deriving DecidableEq, Repr

/-- `sdf::Pbr` metal/specular workflow parameters used by the source. -/
structure PbrWorkflow where
  roughness : ℚ
  metalness : ℚ
  roughnessMap : String
  metalnessMap : String
  albedoMap : String
  normalMap : String
  environmentMap : String
deriving DecidableEq, Repr

/-- `sdf::Pbr`: the source only queries `Workflow(PbrWorkflowType::METAL)`,
modelled by the `metal` field (a PBR block whose workflow is not "metal" has
`metal = none`). -/
structure SdfPbr where
  metal : Option PbrWorkflow
deriving DecidableEq, Repr

/-- `sdf::Material`. -/
structure SdfMaterial where
  ambient : Color
  diffuse : Color
  specular : Color
  emissive : Color
  pbr : Option SdfPbr
deriving DecidableEq, Repr

/-- `sdf::Model` (only the accessors the source uses). -/
structure SdfModel where
  name : String
  pose : Pose
deriving DecidableEq, Repr

/-- `sdf::Link` (only the accessors the source uses). -/
structure SdfLink where
  name : String
  pose : Pose
deriving DecidableEq, Repr

/-- `sdf::Visual` (only the accessors the source uses); `geom = none` models
`_visual.Geom() == nullptr`. -/
structure SdfVisual where
  name : String
  pose : Pose
  geom : Option GeomDesc
  material : Option SdfMaterial
deriving DecidableEq, Repr

/-- `sdf::LightType` together with the subtype parameters the source reads
for each case; `unsupported` stands for any other light kind. -/
inductive LightType where
  | point
  | spot (inner outer falloff : ℚ)
  | directional (dir : Vec3)
  | unsupported
deriving DecidableEq, Repr

/-- `sdf::Light` (only the accessors the source uses). -/
structure SdfLight where
  name : String
  pose : Pose
  ltype : LightType
  diffuse : Color
  specular : Color
  attConstant : ℚ
  attLinear : ℚ
  attQuadratic : ℚ
  attRange : ℚ
  castShadows : Bool
deriving DecidableEq, Repr

/-- Association-list lookup with decidable key equality (the behavior of
`std::map::find` on the id-keyed registries and handle-keyed stores). -/
def alook {K A : Type} [DecidableEq K] : List (K × A) → K → Option A
  | [], _ => none
  | (k, v) :: t, k' => if k' = k then some v else alook t k'

/-- Hierarchy-mutating and destroying calls made into the Scene collaborator,
recorded chronologically (instrumentation of the external calls the claims
talk about; property-reading calls are not recorded). -/
inductive SceneEvent where
  | destroyVisual (node : ℕ)
  | destroyLight (node : ℕ)
  | removeParent (node : ℕ)
  | addChild (parent child : ℕ)
deriving DecidableEq, Repr

/-- Node kinds instantiated by the source. -/
inductive NodeKind where
  | visual
  | pointLight
  | spotLight
  | dirLight
  | sensor
deriving DecidableEq, Repr

/-- A node of the rendering scene (visuals, lights and sensors share one
store; fields irrelevant to a kind keep their defaults). -/
structure RNode where
  name : String
  kind : NodeKind
  pose : Pose := poseZero
  scale : Vec3 := v3one
  parent : Option ℕ := none
  geoms : List ℕ := []
  diffuse : Color := colorBlack
  specular : Color := colorBlack
  attConstant : ℚ := 0
  attLinear : ℚ := 0
  attQuadratic : ℚ := 0
  attRange : ℚ := 0
  castShadows : Bool := false
  innerAngle : ℚ := 0
  outerAngle : ℚ := 0
  falloff : ℚ := 0
  direction : Vec3 := v3zero
deriving DecidableEq, Repr

/-- A geometry object created by the scene (`CreateBox`, `CreateMesh`, …);
`material` is the handle set by `Geometry::SetMaterial` (for a mesh, the
material the loaded mesh carries — not modelled, hence `none`). -/
structure GeomObj where
  shape : ShapeKind
  material : Option ℕ := none
deriving DecidableEq, Repr

/-- A material object of the rendering scene. -/
structure RMaterial where
  ambient : Color := colorBlack
  diffuse : Color := colorBlack
  specular : Color := colorBlack
  emissive : Color := colorBlack
  roughness : ℚ := 0
  metalness : ℚ := 0
  roughnessMap : Option String := none
  metalnessMap : Option String := none
  texture : Option String := none
  normalMap : Option String := none
  environmentMap : Option String := none
deriving DecidableEq, Repr

/-- The rendering Scene collaborator: stores of nodes, geometry objects and
material objects keyed by handles from one allocator `fresh`, the name
registry of named materials, the rendering-id → sensor-node registry
(populated by the external sensor subsystem) and the event log. -/
structure Scene where
  nodes : List (ℕ × RNode)
  geoms : List (ℕ × GeomObj)
  mats : List (ℕ × RMaterial)
  matNames : List (String × ℕ)
  sensors : List (ℕ × ℕ)
  rootRef : ℕ
  fresh : ℕ
  log : List SceneEvent
deriving DecidableEq, Repr

/-- A freshly constructed scene holding only the root visual. -/
def Scene.init : Scene :=
  { nodes := [(0, { name := "root", kind := .visual })]
    geoms := []
    mats := []
    matNames := []
    sensors := []
    rootRef := 0
    fresh := 1
    log := [] }

/-- `Scene::CreateVisual(name)` / `Create*Light(name)`: allocate a node. -/
def Scene.createNode (s : Scene) (k : NodeKind) (nm : String) : ℕ × Scene :=
  (s.fresh,
   { s with nodes := (s.fresh, { name := nm, kind := k }) :: s.nodes
            fresh := s.fresh + 1 })

/-- Point update of a node in the store. -/
def Scene.updateNode (s : Scene) (r : ℕ) (f : RNode → RNode) : Scene :=
  { s with nodes := s.nodes.map fun p => if p.1 = r then (p.1, f p.2) else p }

def Scene.nodeOf (s : Scene) (r : ℕ) : Option RNode := alook s.nodes r

/-- `node->Name()` (empty for a dangling handle). -/
def Scene.nodeName (s : Scene) (r : ℕ) : String :=
  match s.nodeOf r with
  | some n => n.name
  | none => ""

def Scene.setLocalPose (s : Scene) (r : ℕ) (p : Pose) : Scene :=
  s.updateNode r fun n => { n with pose := p }

def Scene.setLocalScale (s : Scene) (r : ℕ) (v : Vec3) : Scene :=
  s.updateNode r fun n => { n with scale := v }

/-- `parent->AddChild(child)`: sets the child's parent back-reference and is
recorded in the log. -/
def Scene.addChild (s : Scene) (p c : ℕ) : Scene :=
  let s' := s.updateNode c fun n => { n with parent := some p }
  { s' with log := s'.log ++ [SceneEvent.addChild p c] }

/-- `node->RemoveParent()`: clears the parent back-reference; recorded. -/
def Scene.removeParent (s : Scene) (c : ℕ) : Scene :=
  let s' := s.updateNode c fun n => { n with parent := none }
  { s' with log := s'.log ++ [SceneEvent.removeParent c] }

def Scene.addGeometry (s : Scene) (r g : ℕ) : Scene :=
  s.updateNode r fun n => { n with geoms := n.geoms ++ [g] }

/-- `Scene::CreateBox` etc.: allocate a geometry object. -/
def Scene.createGeom (s : Scene) (k : ShapeKind) : ℕ × Scene :=
  (s.fresh,
   { s with geoms := (s.fresh, { shape := k }) :: s.geoms, fresh := s.fresh + 1 })

def Scene.geomOf (s : Scene) (g : ℕ) : Option GeomObj := alook s.geoms g

def Scene.updateGeom (s : Scene) (g : ℕ) (f : GeomObj → GeomObj) : Scene :=
  { s with geoms := s.geoms.map fun p => if p.1 = g then (p.1, f p.2) else p }

/-- `geom->SetMaterial(material)` (the handle may be null). -/
def Scene.setGeomMaterial (s : Scene) (g : ℕ) (m : Option ℕ) : Scene :=
  s.updateGeom g fun o => { o with material := m }

/-- `Scene::CreateMaterial()` (anonymous). -/
def Scene.createMaterial (s : Scene) : ℕ × Scene :=
  (s.fresh, { s with mats := (s.fresh, {}) :: s.mats, fresh := s.fresh + 1 })

/-- `Scene::CreateMaterial(name)`: also registers the name. -/
def Scene.createMaterialNamed (s : Scene) (nm : String) : ℕ × Scene :=
  (s.fresh,
   { s with mats := (s.fresh, {}) :: s.mats
            matNames := (nm, s.fresh) :: s.matNames
            fresh := s.fresh + 1 })

/-- `Scene::Material(name)`. -/
def Scene.materialByName (s : Scene) (nm : String) : Option ℕ :=
  alook s.matNames nm

def Scene.matOf (s : Scene) (m : ℕ) : Option RMaterial := alook s.mats m

def Scene.updateMat (s : Scene) (m : ℕ) (f : RMaterial → RMaterial) : Scene :=
  { s with mats := s.mats.map fun p => if p.1 = m then (p.1, f p.2) else p }

/-- `Scene::DestroyVisual(node)`: drops the node; recorded. -/
def Scene.destroyVisual (s : Scene) (r : ℕ) : Scene :=
  { s with nodes := s.nodes.filter fun p => p.1 ≠ r
           log := s.log ++ [SceneEvent.destroyVisual r] }

/-- `Scene::DestroyLight(node)`: drops the node; recorded. -/
def Scene.destroyLight (s : Scene) (r : ℕ) : Scene :=
  { s with nodes := s.nodes.filter fun p => p.1 ≠ r
           log := s.log ++ [SceneEvent.destroyLight r] }

/-- `Scene::SensorById(renderingId)`. -/
def Scene.sensorById (s : Scene) (rid : ℕ) : Option ℕ := alook s.sensors rid

/-- Models the external sensor subsystem (ign-sensors, outside this
repository) having created a sensor in the scene under a rendering-side id,
optionally already attached to a parent node. -/
def Scene.registerSensor (s : Scene) (rid : ℕ) (nm : String) (parent : Option ℕ) :
    ℕ × Scene :=
  (s.fresh,
   { s with nodes := (s.fresh, { name := nm, kind := .sensor, parent := parent }) :: s.nodes
            sensors := (rid, s.fresh) :: s.sensors
            fresh := s.fresh + 1 })

/-- `SceneManagerPrivate`: the world id, the scene and the three
entity-registry maps (external entity id → node handle), modelled as
association lists (lookup/insert/erase agree with `std::map`). -/
structure SMState where
  worldId : ℕ
  scene : Scene
  visuals : List (ℕ × ℕ)
  lights : List (ℕ × ℕ)
  sensors : List (ℕ × ℕ)
deriving DecidableEq, Repr

/-- A fresh manager over a fresh scene (`SetScene` + `SetWorldId`). -/
def SMState.init (wid : ℕ) : SMState :=
  { worldId := wid, scene := Scene.init, visuals := [], lights := [], sensors := [] }

/-- `map[key] = value` on `std::map`: insert or overwrite. -/
def aset (m : List (ℕ × ℕ)) (k v : ℕ) : List (ℕ × ℕ) :=
  (k, v) :: m.filter fun p => p.1 ≠ k

/-- `map.erase(it)` for the (unique) entry at `k`. -/
def aerase (m : List (ℕ × ℕ)) (k : ℕ) : List (ℕ × ℕ) :=
  m.filter fun p => p.1 ≠ k

/-- The parent-resolution block shared verbatim by CreateModel / CreateLink /
CreateVisual / CreateLight / AddSensor (lines 84-95, 124-135, 162-173,
420-431, 498-509): `none` is the early error return; `some none` means "no
parent" (the parent id is the world id); `some (some p)` is a resolved
parent node. -/
def resolveParent (st : SMState) (parentId : ℕ) : Option (Option ℕ) :=
  if parentId = st.worldId then some none
  else
    match alook st.visuals parentId with
    | none => none
    | some p => some (some p)

/-- The display-name computation shared by the creation operations: the
entity's own name if non-empty, else the decimal form of its id; prefixed
with `parent->Name() + "::"` when a parent was resolved. -/
def displayName (sc : Scene) (parent : Option ℕ) (nm : String) (id : ℕ) : String :=
  let base := if nm = "" then toString id else nm
  match parent with
  | some p => sc.nodeName p ++ "::" ++ base
  | none => base

/-- `SceneManager::CreateModel` (lines 74-111). -/
def createModel (st : SMState) (id : ℕ) (m : SdfModel) (parentId : ℕ) :
    Option ℕ × SMState :=
  if (alook st.visuals id).isSome then (none, st)
  else
    match resolveParent st parentId with
    | none => (none, st)
    | some parent =>
      let nm := displayName st.scene parent m.name id
      let (ref, s1) := st.scene.createNode .visual nm
      let s2 := s1.setLocalPose ref m.pose
      let vis' := aset st.visuals id ref
      let s3 :=
        match parent with
        | some p => s2.addChild p ref
        | none => s2.addChild s2.rootRef ref
      (some ref, { st with scene := s3, visuals := vis' })

/-- `SceneManager::CreateLink` (lines 114-149): like `CreateModel` but a
link with no resolved parent is left unattached (no root attachment). -/
def createLink (st : SMState) (id : ℕ) (l : SdfLink) (parentId : ℕ) :
    Option ℕ × SMState :=
  if (alook st.visuals id).isSome then (none, st)
  else
    match resolveParent st parentId with
    | none => (none, st)
    | some parent =>
      let nm := displayName st.scene parent l.name id
      let (ref, s1) := st.scene.createNode .visual nm
      let s2 := s1.setLocalPose ref l.pose
      let vis' := aset st.visuals id ref
      let s3 :=
        match parent with
        | some p => s2.addChild p ref
        | none => s2
      (some ref, { st with scene := s3, visuals := vis' })

/-- `SceneManager::LoadGeometry` (lines 253-315): shape description →
(geometry handle or none, scale, corrective local pose, scene).  On the
no-geometry paths the caller's in-out arguments keep their initial values
`One` / `Zero`, which is what we return. -/
def loadGeometry (s : Scene) (g : GeomDesc) : Option ℕ × Vec3 × Pose × Scene :=
  match g with
  | .box size =>
    let (r, s') := s.createGeom .box
    (some r, size, poseZero, s')
  | .cylinder radius length =>
    let (r, s') := s.createGeom .cylinder
    (some r, ⟨radius * 2, radius * 2, length⟩, poseZero, s')
  | .plane sx sy normal =>
    let (r, s') := s.createGeom .plane
    (some r, ⟨sx, sy, 1⟩, ⟨v3zero, from2AxesZ (v3normalized normal)⟩, s')
  | .sphere radius =>
    let (r, s') := s.createGeom .sphere
    (some r, ⟨radius * 2, radius * 2, radius * 2⟩, poseZero, s')
  | .mesh uri scale =>
    if uri = "" then (none, v3one, poseZero, s)
    else
      let (r, s') := s.createGeom .mesh
      (some r, scale, poseZero, s')
  | .unsupported => (none, v3one, poseZero, s)

/-- The per-map texture resolution of `LoadMaterial`: skip an empty
reference; resolve through the file-lookup collaborator `ff`
(`common::findFile`); a failed resolution only reports and leaves the map
unset. -/
def setMapIfFound (s : Scene) (ff : String → Option String) (mref : ℕ)
    (path : String) (apply : RMaterial → String → RMaterial) : Scene :=
  if path = "" then s
  else
    match ff path with
    | some full => s.updateMat mref fun mt => apply mt full
    | none => s

/-- `SceneManager::LoadMaterial` (lines 318-407).  Returns `none` exactly
when the unconditional `workflow->AlbedoMap()` dereference at line 371 is
reached with `workflow` still null (PBR block present, metal workflow
absent): undefined behavior in the source, modelled as a crash. -/
def loadMaterial (s : Scene) (ff : String → Option String) (m : SdfMaterial) :
    Option (ℕ × Scene) :=
  let (mref, s1) := s.createMaterial
  let s2 := s1.updateMat mref fun mt =>
    { mt with ambient := m.ambient, diffuse := m.diffuse,
              specular := m.specular, emissive := m.emissive }
  match m.pbr with
  | none => some (mref, s2)
  | some pbr =>
    let step : Scene × Option PbrWorkflow :=
      match pbr.metal with
      | some metal =>
        let s3 := s2.updateMat mref fun mt =>
          { mt with roughness := metal.roughness, metalness := metal.metalness }
        let s4 := setMapIfFound s3 ff mref metal.roughnessMap
          fun mt p => { mt with roughnessMap := some p }
        let s5 := setMapIfFound s4 ff mref metal.metalnessMap
          fun mt p => { mt with metalnessMap := some p }
        (s5, some metal)
      | none => (s2, none)
    match step.2 with
    | none => none
    | some w =>
      let s6 := setMapIfFound step.1 ff mref w.albedoMap
        fun mt p => { mt with texture := some p }
      let s7 := setMapIfFound s6 ff mref w.normalMap
        fun mt p => { mt with normalMap := some p }
      let s8 := setMapIfFound s7 ff mref w.environmentMap
        fun mt p => { mt with environmentMap := some p }
      some (mref, s8)

/-- The material-selection block of `CreateVisual` (lines 206-237): explicit
material via `LoadMaterial` (may crash, see `loadMaterial`); for a mesh the
material the mesh geometry already carries; otherwise the cached scene
material `"ign-grey"`, created on first use with the fixed constants. -/
def visualMaterial (s : Scene) (ff : String → Option String)
    (descMat : Option SdfMaterial) (g : GeomDesc) (gref : ℕ) :
    Option (Option ℕ × Scene) :=
  match descMat with
  | some sm =>
    match loadMaterial s ff sm with
    | none => none
    | some (mref, s') => some (some mref, s')
  | none =>
    if g.isMesh then
      some ((s.geomOf gref).bind GeomObj.material, s)
    else
      match s.materialByName "ign-grey" with
      | some mref => some (some mref, s)
      | none =>
        let (mref, s') := s.createMaterialNamed "ign-grey"
        let s'' := s'.updateMat mref fun mt =>
          { mt with ambient := mkColor3 (3/10) (3/10) (3/10)
                    diffuse := mkColor3 (7/10) (7/10) (7/10)
                    specular := mkColor3 1 1 1
                    roughness := 1/5
                    metalness := 1 }
        some (some mref, s'')

/-- Registration and attachment shared by both arms of `if (geom)` in
`CreateVisual` (lines 245-249). -/
def finishVisual (st : SMState) (id : ℕ) (parent : Option ℕ) (ref : ℕ)
    (s : Scene) : Option ℕ × SMState :=
  let vis' := aset st.visuals id ref
  let s' :=
    match parent with
    | some p => s.addChild p ref
    | none => s
  (some ref, { st with scene := s', visuals := vis' })

/-- `SceneManager::CreateVisual` (lines 152-250).  The outer `Option` is the
crash modelling inherited from `loadMaterial`; every non-crashing path is
`some`. -/
def createVisual (st : SMState) (ff : String → Option String) (id : ℕ)
    (v : SdfVisual) (parentId : ℕ) : Option (Option ℕ × SMState) :=
  if (alook st.visuals id).isSome then some (none, st)
  else
    match resolveParent st parentId with
    | none => some (none, st)
    | some parent =>
      match v.geom with
      | none => some (none, st)
      | some g =>
        let nm := displayName st.scene parent v.name id
        let (vref, s1) := st.scene.createNode .visual nm
        let s2 := s1.setLocalPose vref v.pose
        match loadGeometry s2 g with
        | (some gref, scale, lpose, s3) =>
          let (finalRef, s4) :=
            if isZeroPose lpose then (vref, s3)
            else
              let (gv, sg) := s3.createNode .visual (nm ++ "_geom")
              (gv, sg.setLocalPose gv (poseMul v.pose lpose))
          let s5 := s4.addGeometry finalRef gref
          let s6 := s5.setLocalScale finalRef scale
          match visualMaterial s6 ff v.material g gref with
          | none => none
          | some (mat, s7) =>
            let s8 := s7.setGeomMaterial gref mat
            some (finishVisual st id parent finalRef s8)
        | (none, _, _, s3) =>
          some (finishVisual st id parent vref s3)

/-- `SceneManager::CreateLight` (lines 410-485). -/
def createLight (st : SMState) (id : ℕ) (l : SdfLight) (parentId : ℕ) :
    Option ℕ × SMState :=
  if (alook st.lights id).isSome then (none, st)
  else
    match resolveParent st parentId with
    | none => (none, st)
    | some parent =>
      let nm := displayName st.scene parent l.name id
      let step : Option (ℕ × Scene) :=
        match l.ltype with
        | .point => some (st.scene.createNode .pointLight nm)
        | .spot inner outer falloff =>
          let (ref, s1) := st.scene.createNode .spotLight nm
          some (ref, s1.updateNode ref fun n =>
            { n with innerAngle := inner, outerAngle := outer, falloff := falloff })
        | .directional dir =>
          let (ref, s1) := st.scene.createNode .dirLight nm
          some (ref, s1.updateNode ref fun n => { n with direction := dir })
        | .unsupported => none
      match step with
      | none => (none, st)
      | some (ref, s1) =>
        let s2 := s1.updateNode ref fun n =>
          { n with pose := l.pose, diffuse := l.diffuse, specular := l.specular,
                   attConstant := l.attConstant, attLinear := l.attLinear,
                   attQuadratic := l.attQuadratic, attRange := l.attRange,
                   castShadows := l.castShadows }
        let lig' := aset st.lights id ref
        let s3 :=
          match parent with
          | some p => s2.addChild p ref
          | none => s2
        (some ref, { st with scene := s3, lights := lig' })

/-- `SceneManager::AddSensor` (lines 488-526). -/
def addSensor (st : SMState) (gazeboId renderingId parentGazeboId : ℕ) :
    Bool × SMState :=
  if (alook st.sensors gazeboId).isSome then (false, st)
  else
    match resolveParent st parentGazeboId with
    | none => (false, st)
    | some parent =>
      match st.scene.sensorById renderingId with
      | none => (false, st)
      | some snode =>
        let s1 :=
          match parent with
          | some p => (st.scene.removeParent snode).addChild p snode
          | none => st.scene
        (true, { st with scene := s1, sensors := aset st.sensors gazeboId snode })

/-- `SceneManager::HasEntity` (lines 529-534). -/
def hasEntity (st : SMState) (id : ℕ) : Bool :=
  (alook st.visuals id).isSome || (alook st.lights id).isSome ||
    (alook st.sensors id).isSome

/-- `SceneManager::NodeById` (lines 537-561): visuals, then lights, then
sensors; first match wins. -/
def nodeById (st : SMState) (id : ℕ) : Option ℕ :=
  match alook st.visuals id with
  | some v => some v
  | none =>
    match alook st.lights id with
    | some l => some l
    | none =>
      match alook st.sensors id with
      | some s => some s
      | none => none

/-- `SceneManager::RemoveEntity` (lines 564-596): visuals, then lights, then
sensors; on the first match destroy (visuals/lights only) and erase. -/
def removeEntity (st : SMState) (id : ℕ) : SMState :=
  match alook st.visuals id with
  | some n => { st with scene := st.scene.destroyVisual n, visuals := aerase st.visuals id }
  | none =>
    match alook st.lights id with
    | some n => { st with scene := st.scene.destroyLight n, lights := aerase st.lights id }
    | none =>
      match alook st.sensors id with
      | some _ => { st with sensors := aerase st.sensors id }
      | none => st

/-! ## Helper lemmas on the association-list and store primitives -/

/-- The corrective local pose `LoadGeometry` computes, as a function of the
shape description alone (proved to agree with `loadGeometry` on every scene
by `loadGeometry_localPose`). -/
def correctiveOf : GeomDesc → Pose
  | .plane _ _ normal => ⟨v3zero, from2AxesZ (v3normalized normal)⟩
  | _ => poseZero

/-- Whether `LoadGeometry` produces a geometry, as a function of the shape
description alone (proved to agree with `loadGeometry` on every scene by
`loadGeometry_isSome`). -/
def resolvesGeom : GeomDesc → Bool
  | .mesh uri _ => uri ≠ ""
  | .unsupported => false
  | _ => true

/-- Observer: the name of the node a visual-creation run registered and
returned (`none` when the run failed or crashed). -/
def resultNodeName : Option (Option ℕ × SMState) → Option String
  | some (some r, st') => some (st'.scene.nodeName r)
  | _ => none

/-! ## Concrete fixtures for witnesses and counterexamples -/

/-- A file-lookup collaborator that finds nothing. -/
def ffNone : String → Option String := fun _ => none

def exModel : SdfModel := { name := "m", pose := poseZero }

def exLink : SdfLink := { name := "base_link", pose := poseZero }

def exLight : SdfLight :=
  { name := "sun", pose := poseZero, ltype := .point, diffuse := colorBlack,
    specular := colorBlack, attConstant := 1, attLinear := 0, attQuadratic := 0,
    attRange := 10, castShadows := true }

def exVisual : SdfVisual :=
  { name := "vis", pose := poseZero, geom := some (.box ⟨1, 1, 1⟩), material := none }

/-- World id 0; model entity 1 registered (visual node handle 1, named "m"). -/
def stModel1 : SMState := (createModel (SMState.init 0) 1 exModel 0).2

/-- World id 0; point light entity 7 registered in the lights map. -/
def stLight7 : SMState := (createLight (SMState.init 0) 7 exLight 0).2

/-! ## C1 -/

/-- A material whose PBR block carries no metal workflow. -/
def matBadWorkflow : SdfMaterial :=
  { ambient := colorBlack, diffuse := colorBlack, specular := colorBlack,
    emissive := colorBlack, pbr := some { metal := none } }

/-- `stModel1` plus a sensor created by the external sensor subsystem:
rendering id 50, node handle 2, initially attached to the root (node 0). -/
def stSensor : SMState :=
  { stModel1 with scene := (stModel1.scene.registerSensor 50 "cam" (some 0)).2 }

/-- A visual description whose geometry kind is unsupported. -/
def visUnsup : SdfVisual :=
  { name := "vis", pose := poseZero, geom := some .unsupported, material := none }

/-- C9 (counterexample input): a plane visual with normal +X under a
registered parent. -/
def visPlaneX : SdfVisual :=
  { name := "vis", pose := poseZero, geom := some (.plane 1 1 ⟨1, 0, 0⟩),
    material := none }

/-- The default material constants of the cached "ign-grey" material. -/
def greyMaterial : RMaterial :=
  { ambient := mkColor3 (3/10) (3/10) (3/10)
    diffuse := mkColor3 (7/10) (7/10) (7/10)
    specular := mkColor3 1 1 1
    roughness := 1/5
    metalness := 1 }

/-- Shapes other than meshes that produce geometry. -/
def isBasicShape : GeomDesc → Bool
  | .box _ => true
  | .cylinder _ _ => true
  | .plane _ _ _ => true
  | .sphere _ => true
  | _ => false



theorem alook_cons_self {K A : Type} [DecidableEq K] (t : List (K × A)) (k : K) (v : A) :
    alook ((k, v) :: t) k = some v := by
  simp [alook]

theorem alook_cons_ne {K A : Type} [DecidableEq K] (t : List (K × A)) (k k' : K) (v : A)
    (h : k' ≠ k) : alook ((k, v) :: t) k' = alook t k' := by
  simp [alook, h]

theorem alook_filter_drop {K A : Type} [DecidableEq K] (p : K × A → Bool)
    (m : List (K × A)) (k : K) (hp : ∀ v, p (k, v) = false) :
    alook (m.filter p) k = none := by
  induction m with
  | nil => rfl
  | cons a t ih =>
    obtain ⟨a, b⟩ := a
    rw [List.filter_cons]
    by_cases hk : k = a
    · subst hk
      rw [hp b]
      simpa using ih
    · by_cases hpa : p (a, b) = true
      · rw [if_pos hpa, alook_cons_ne _ _ _ _ hk]
        exact ih
      · rw [if_neg (by simpa using hpa)]
        exact ih

theorem alook_filter_keep {K A : Type} [DecidableEq K] (p : K × A → Bool)
    (m : List (K × A)) (k : K) (hp : ∀ v, p (k, v) = true) :
    alook (m.filter p) k = alook m k := by
  induction m with
  | nil => rfl
  | cons a t ih =>
    obtain ⟨a, b⟩ := a
    rw [List.filter_cons]
    by_cases hk : k = a
    · subst hk
      rw [hp b, if_pos rfl, alook_cons_self, alook_cons_self]
    · rw [alook_cons_ne _ _ _ _ hk]
      by_cases hpa : p (a, b) = true
      · rw [if_pos hpa, alook_cons_ne _ _ _ _ hk]
        exact ih
      · rw [if_neg (by simpa using hpa)]
        exact ih

theorem alook_aset_self (m : List (ℕ × ℕ)) (k v : ℕ) :
    alook (aset m k v) k = some v := by
  simp [aset, alook]

theorem alook_aset_ne (m : List (ℕ × ℕ)) (k v k' : ℕ) (h : k' ≠ k) :
    alook (aset m k v) k' = alook m k' := by
  unfold aset
  rw [alook_cons_ne _ _ _ _ h]
  exact alook_filter_keep _ m k' fun v => by simp [h]

theorem alook_aerase_self (m : List (ℕ × ℕ)) (k : ℕ) :
    alook (aerase m k) k = none :=
  alook_filter_drop _ m k fun v => by simp

theorem alook_aerase_ne (m : List (ℕ × ℕ)) (k k' : ℕ) (h : k' ≠ k) :
    alook (aerase m k) k' = alook m k' :=
  alook_filter_keep _ m k' fun v => by simp [h]

theorem alook_mapUpdate_ne {A : Type} (l : List (ℕ × A)) (r k : ℕ) (f : A → A)
    (h : k ≠ r) :
    alook (l.map fun p => if p.1 = r then (p.1, f p.2) else p) k = alook l k := by
  induction l with
  | nil => rfl
  | cons a t ih =>
    obtain ⟨a, b⟩ := a
    rw [List.map_cons]
    by_cases ha : a = r
    · rw [if_pos (by simpa using ha)]
      have hk : k ≠ a := fun e => h (e ▸ ha)
      rw [alook_cons_ne _ _ _ _ hk, alook_cons_ne _ _ _ _ hk]
      exact ih
    · rw [if_neg (by simpa using ha)]
      by_cases hk : k = a
      · subst hk
        rw [alook_cons_self, alook_cons_self]
      · rw [alook_cons_ne _ _ _ _ hk, alook_cons_ne _ _ _ _ hk]
        exact ih

theorem alook_mapUpdate_self {A : Type} (l : List (ℕ × A)) (r : ℕ) (f : A → A) :
    alook (l.map fun p => if p.1 = r then (p.1, f p.2) else p) r =
      (alook l r).map f := by
  induction l with
  | nil => rfl
  | cons a t ih =>
    obtain ⟨a, b⟩ := a
    rw [List.map_cons]
    by_cases ha : a = r
    · subst ha
      rw [if_pos rfl, alook_cons_self, alook_cons_self]
      rfl
    · rw [if_neg (by simpa using ha)]
      have hr : r ≠ a := fun e => ha e.symm
      rw [alook_cons_ne _ _ _ _ hr, alook_cons_ne _ _ _ _ hr]
      exact ih

/-! ## Observer lemmas for scene operations -/

theorem nodeOf_updateNode (s : Scene) (r : ℕ) (f : RNode → RNode) (k : ℕ) :
    (s.updateNode r f).nodeOf k =
      if k = r then (s.nodeOf k).map f else s.nodeOf k := by
  by_cases h : k = r
  · subst h
    simp [Scene.updateNode, Scene.nodeOf, alook_mapUpdate_self]
  · simp [Scene.updateNode, Scene.nodeOf, h, alook_mapUpdate_ne _ _ _ _ h]

theorem geomOf_updateGeom (s : Scene) (g : ℕ) (f : GeomObj → GeomObj) (k : ℕ) :
    (s.updateGeom g f).geomOf k =
      if k = g then (s.geomOf k).map f else s.geomOf k := by
  by_cases h : k = g
  · subst h
    simp [Scene.updateGeom, Scene.geomOf, alook_mapUpdate_self]
  · simp [Scene.updateGeom, Scene.geomOf, h, alook_mapUpdate_ne _ _ _ _ h]

theorem matOf_updateMat (s : Scene) (m : ℕ) (f : RMaterial → RMaterial) (k : ℕ) :
    (s.updateMat m f).matOf k =
      if k = m then (s.matOf k).map f else s.matOf k := by
  by_cases h : k = m
  · subst h
    simp [Scene.updateMat, Scene.matOf, alook_mapUpdate_self]
  · simp [Scene.updateMat, Scene.matOf, h, alook_mapUpdate_ne _ _ _ _ h]

theorem nodeOf_createNode (s : Scene) (kd : NodeKind) (nm : String) (j : ℕ) :
    ((s.createNode kd nm).2).nodeOf j =
      if j = s.fresh then some { name := nm, kind := kd } else s.nodeOf j := by
  by_cases h : j = s.fresh
  · subst h
    simp [Scene.createNode, Scene.nodeOf, alook]
  · simp [Scene.createNode, Scene.nodeOf, alook, h]

theorem geomOf_createGeom (s : Scene) (k : ShapeKind) (j : ℕ) :
    ((s.createGeom k).2).geomOf j =
      if j = s.fresh then some { shape := k } else s.geomOf j := by
  by_cases h : j = s.fresh
  · subst h
    simp [Scene.createGeom, Scene.geomOf, alook]
  · simp [Scene.createGeom, Scene.geomOf, alook, h]

theorem matOf_createMaterialNamed (s : Scene) (nm : String) (j : ℕ) :
    ((s.createMaterialNamed nm).2).matOf j =
      if j = s.fresh then some {} else s.matOf j := by
  by_cases h : j = s.fresh
  · subst h
    simp [Scene.createMaterialNamed, Scene.matOf, alook]
  · simp [Scene.createMaterialNamed, Scene.matOf, alook, h]

/-! ## The plane corrective rotation -/

theorem ratSqrt_one : ratSqrt 1 = 1 := by
  norm_num [ratSqrt]

theorem v3normalized_unit (v : Vec3) (h : v3dot v v = 1) : v3normalized v = v := by
  obtain ⟨a, b, c⟩ := v
  simp [v3normalized, h, ratSqrt_one, v3scale]

theorem quatRotate_from2AxesZ (n : Vec3) (h : v3dot n n = 1) :
    quatRotate (from2AxesZ n) unitZ = n := by
  obtain ⟨a, b, c⟩ := n
  simp only [v3dot] at h
  by_cases hc : 1 + c ≤ 0
  · have hcm : c = -1 := by nlinarith [sq_nonneg a, sq_nonneg b, sq_nonneg (c + 1)]
    subst hcm
    have ha : a = 0 := by nlinarith [sq_nonneg a, sq_nonneg b]
    have hb : b = 0 := by nlinarith [sq_nonneg a, sq_nonneg b]
    subst ha
    subst hb
    norm_num [from2AxesZ, quatRotate, qmul, qconj, qnormSq, unitZ]
  · have hN : (0:ℚ) < 1 + c := by linarith [not_le.mp hc]
    have hD : (1 + c) * (1 + c) + -b * -b + a * a + 0 * 0 = 2 * (1 + c) := by
      linear_combination h
    have hne : (2 : ℚ) * (1 + c) ≠ 0 := by positivity
    rw [from2AxesZ, if_neg hc]
    simp only [quatRotate, qmul, qconj, qnormSq, unitZ]
    rw [Vec3.mk.injEq]
    refine ⟨?_, ?_, ?_⟩ <;>
      · rw [hD, div_eq_iff hne]
        first
        | ring1
        | linear_combination h
        | linear_combination -h

theorem isZeroPose_poseZero : isZeroPose poseZero = true := by decide

theorem loadGeometry_localPose (s : Scene) (g : GeomDesc) :
    (loadGeometry s g).2.2.1 = correctiveOf g := by
  cases g <;> simp [loadGeometry, correctiveOf, Scene.createGeom]
  case mesh uri sc => split <;> simp

theorem loadGeometry_isSome (s : Scene) (g : GeomDesc) :
    (loadGeometry s g).1.isSome = resolvesGeom g := by
  cases g <;> simp [loadGeometry, resolvesGeom, Scene.createGeom]
  case mesh uri sc => split <;> simp_all

theorem corrective_ne_zero (n : Vec3) (h : v3dot n n = 1) (hz : n ≠ unitZ) :
    isZeroPose ⟨v3zero, from2AxesZ n⟩ = false := by
  obtain ⟨a, b, c⟩ := n
  simp only [v3dot] at h
  by_cases hc : 1 + c ≤ 0
  · rw [isZeroPose, from2AxesZ, if_pos hc, decide_eq_false_iff_not]
    rintro ⟨-, hx, -⟩
    exact one_ne_zero hx
  · rw [isZeroPose, from2AxesZ, if_neg hc, decide_eq_false_iff_not]
    rintro ⟨-, hx, hy, -, -⟩
    apply hz
    have hb : b = 0 := by
      have : -b = 0 := hx
      linarith
    have ha : a = 0 := hy
    subst ha
    subst hb
    have hfac : (c - 1) * (c + 1) = 0 := by linear_combination h
    rcases mul_eq_zero.mp hfac with h1 | h1
    · have : c = 1 := by linarith
      simp [unitZ, this]
    · exfalso
      apply hc
      linarith

/-- C1 (counterexample): the claim says creation fails whenever the id is
already present in *any* of the three registry maps; but with id 7 already
registered in the lights map, `CreateModel(7, …)` succeeds (each operation
checks only its own map). -/
theorem C1_counterexample :
    (alook stLight7.lights 7).isSome = true ∧
      ((createModel stLight7 7 exModel 0).1).isSome = true := by
  decide

/-- C1 (amended): each creation operation rejects an id already present in
its *own* registry map — visuals for CreateModel/CreateLink/CreateVisual,
lights for CreateLight, sensors for AddSensor — returning an empty/false
result and leaving the registry maps and the scene (hence the hierarchy)
unchanged. -/
theorem C1_duplicate_id_rejected (st : SMState) (id pid rid : ℕ) (m : SdfModel)
    (l : SdfLink) (v : SdfVisual) (lg : SdfLight) (ff : String → Option String) :
    ((alook st.visuals id).isSome = true → createModel st id m pid = (none, st)) ∧
    ((alook st.visuals id).isSome = true → createLink st id l pid = (none, st)) ∧
    ((alook st.visuals id).isSome = true →
      createVisual st ff id v pid = some (none, st)) ∧
    ((alook st.lights id).isSome = true → createLight st id lg pid = (none, st)) ∧
    ((alook st.sensors id).isSome = true → addSensor st id rid pid = (false, st)) := by
  refine ⟨fun h => ?_, fun h => ?_, fun h => ?_, fun h => ?_, fun h => ?_⟩ <;>
    simp [createModel, createLink, createVisual, createLight, addSensor, h]

/-- C1 (witness): duplicate light id 7 is rejected with the state unchanged. -/
theorem C1_witness :
    (alook stLight7.lights 7).isSome = true ∧
      createLight stLight7 7 exLight 0 = (none, stLight7) :=
  ⟨by decide,
   (C1_duplicate_id_rejected stLight7 7 0 0 exModel exLink exVisual exLight
      ffNone).2.2.2.1 (by decide)⟩

/-! ## C3 -/

/-- C3: if the material's PBR block is present but its workflow is not the
metal workflow, `LoadMaterial` reports the error and then resolves the
albedo/normal/environment maps against the still-null workflow pointer: the
null-dereference branch (line 371) is reached — modelled as the crashing
(`none`) result; the operation does not skip workflow-derived texture
resolution. -/
theorem C3_null_workflow_deref (s : Scene) (ff : String → Option String)
    (m : SdfMaterial) (p : SdfPbr) (hp : m.pbr = some p) (hm : p.metal = none) :
    loadMaterial s ff m = none := by
  simp [loadMaterial, hp, hm]

/-- C3 (witness): the crash branch on a concrete non-metal PBR material. -/
theorem C3_witness : loadMaterial Scene.init ffNone matBadWorkflow = none :=
  C3_null_workflow_deref Scene.init ffNone matBadWorkflow { metal := none } rfl rfl

/-! ## C4 -/

/-- C4: every creation operation called with a fresh id and a parent id that
is neither the world id nor a key of the visuals map returns an empty/false
result and leaves the whole manager state — all three registry maps and the
scene — unchanged (no node is created). -/
theorem C4_missing_parent_rejected (st : SMState) (id pid rid : ℕ)
    (m : SdfModel) (l : SdfLink) (v : SdfVisual) (lg : SdfLight)
    (ff : String → Option String)
    (hw : pid ≠ st.worldId) (hp : alook st.visuals pid = none) :
    (alook st.visuals id = none → createModel st id m pid = (none, st)) ∧
    (alook st.visuals id = none → createLink st id l pid = (none, st)) ∧
    (alook st.visuals id = none → createVisual st ff id v pid = some (none, st)) ∧
    (alook st.lights id = none → createLight st id lg pid = (none, st)) ∧
    (alook st.sensors id = none → addSensor st id rid pid = (false, st)) := by
  refine ⟨fun h => ?_, fun h => ?_, fun h => ?_, fun h => ?_, fun h => ?_⟩ <;>
    simp [createModel, createLink, createVisual, createLight, addSensor,
      resolveParent, hw, hp, h]

/-- C4 (witness): parent id 9 is unregistered in `stModel1` (world id 0), so
all five creations of entity 5 fail without touching the state. -/
theorem C4_witness :
    createModel stModel1 5 exModel 9 = (none, stModel1) ∧
      createLink stModel1 5 exLink 9 = (none, stModel1) ∧
      createVisual stModel1 ffNone 5 exVisual 9 = some (none, stModel1) ∧
      createLight stModel1 5 exLight 9 = (none, stModel1) ∧
      addSensor stModel1 5 0 9 = (false, stModel1) := by
  have h := C4_missing_parent_rejected stModel1 5 9 0 exModel exLink exVisual
    exLight ffNone (by decide) (by decide)
  exact ⟨h.1 (by decide), h.2.1 (by decide), h.2.2.1 (by decide),
    h.2.2.2.1 (by decide), h.2.2.2.2 (by decide)⟩

/-! ## C10 -/

/-- C10: `RemoveEntity` on an id absent from all three registry maps is a
no-op — the state (maps and scene) is unchanged and in particular no
`DestroyVisual`/`DestroyLight` call is made (the destroy log is untouched). -/
theorem C10_remove_absent_noop (st : SMState) (id : ℕ)
    (h1 : alook st.visuals id = none) (h2 : alook st.lights id = none)
    (h3 : alook st.sensors id = none) :
    removeEntity st id = st ∧ (removeEntity st id).scene.log = st.scene.log := by
  have h : removeEntity st id = st := by
    simp [removeEntity, h1, h2, h3]
  exact ⟨h, by rw [h]⟩

/-- C10 (witness): removing the unregistered id 42 changes nothing. -/
theorem C10_witness :
    removeEntity stModel1 42 = stModel1 ∧
      (removeEntity stModel1 42).scene.log = stModel1.scene.log :=
  C10_remove_absent_noop stModel1 42 (by decide) (by decide) (by decide)

/-! ## C8 -/

/-- C8: `RemoveEntity` checks visuals, lights, sensors in that order and acts
only on the first match — a visuals match destroys the node via the scene
(`DestroyVisual` logged, node gone) and erases only the visuals entry; a
lights match destroys via `DestroyLight` and erases only the lights entry; a
sensors match erases only the sensors entry with no scene call at all; and
for an id present in exactly one map, `HasEntity` is false and `NodeById`
empty afterwards. -/
theorem C8_removeEntity_first_match (st : SMState) (id : ℕ) :
    (∀ n, alook st.visuals id = some n →
      (removeEntity st id).visuals = aerase st.visuals id ∧
      (removeEntity st id).lights = st.lights ∧
      (removeEntity st id).sensors = st.sensors ∧
      (removeEntity st id).scene.log = st.scene.log ++ [SceneEvent.destroyVisual n] ∧
      (removeEntity st id).scene.nodeOf n = none) ∧
    (alook st.visuals id = none → ∀ n, alook st.lights id = some n →
      (removeEntity st id).lights = aerase st.lights id ∧
      (removeEntity st id).visuals = st.visuals ∧
      (removeEntity st id).sensors = st.sensors ∧
      (removeEntity st id).scene.log = st.scene.log ++ [SceneEvent.destroyLight n] ∧
      (removeEntity st id).scene.nodeOf n = none) ∧
    (alook st.visuals id = none → alook st.lights id = none →
      (alook st.sensors id).isSome = true →
      (removeEntity st id).sensors = aerase st.sensors id ∧
      (removeEntity st id).visuals = st.visuals ∧
      (removeEntity st id).lights = st.lights ∧
      (removeEntity st id).scene = st.scene) ∧
    ((((alook st.visuals id).isSome = true ∧ alook st.lights id = none ∧
        alook st.sensors id = none) ∨
      (alook st.visuals id = none ∧ (alook st.lights id).isSome = true ∧
        alook st.sensors id = none) ∨
      (alook st.visuals id = none ∧ alook st.lights id = none ∧
        (alook st.sensors id).isSome = true)) →
      hasEntity (removeEntity st id) id = false ∧
      nodeById (removeEntity st id) id = none) := by
  refine ⟨?_, ?_, ?_, ?_⟩
  · intro n hv
    simp [removeEntity, hv, Scene.destroyVisual, Scene.nodeOf]
    exact alook_filter_drop _ _ _ fun v => by simp
  · intro hv n hl
    simp [removeEntity, hv, hl, Scene.destroyLight, Scene.nodeOf]
    exact alook_filter_drop _ _ _ fun v => by simp
  · intro hv hl hs
    obtain ⟨n, hn⟩ := Option.isSome_iff_exists.mp hs
    simp [removeEntity, hv, hl, hn]
  · rintro (⟨hv, hl, hs⟩ | ⟨hv, hl, hs⟩ | ⟨hv, hl, hs⟩)
    · obtain ⟨n, hn⟩ := Option.isSome_iff_exists.mp hv
      simp [removeEntity, hn, hasEntity, nodeById, alook_aerase_self, hl, hs]
    · obtain ⟨n, hn⟩ := Option.isSome_iff_exists.mp hl
      simp [removeEntity, hv, hn, hasEntity, nodeById, alook_aerase_self, hs]
    · obtain ⟨n, hn⟩ := Option.isSome_iff_exists.mp hs
      simp [removeEntity, hv, hl, hn, hasEntity, nodeById, alook_aerase_self]

/-- C8 (witness): removing visual entity 1 from `stModel1` destroys node 1,
erases only the visuals entry, and `HasEntity`/`NodeById` report absent. -/
theorem C8_witness :
    (removeEntity stModel1 1).visuals = aerase stModel1.visuals 1 ∧
      (removeEntity stModel1 1).scene.log =
        stModel1.scene.log ++ [SceneEvent.destroyVisual 1] ∧
      (removeEntity stModel1 1).scene.nodeOf 1 = none ∧
      hasEntity (removeEntity stModel1 1) 1 = false ∧
      nodeById (removeEntity stModel1 1) 1 = none := by
  have h := C8_removeEntity_first_match stModel1 1
  have ha := h.1 1 (by decide)
  have hd := h.2.2.2 (Or.inl ⟨by decide, by decide, by decide⟩)
  exact ⟨ha.1, ha.2.2.2.1, ha.2.2.2.2, hd.1, hd.2⟩

theorem nodeOf_addChild (s : Scene) (p c k : ℕ) :
    (s.addChild p c).nodeOf k =
      if k = c then (s.nodeOf k).map (fun n => { n with parent := some p })
      else s.nodeOf k := by
  have h : (s.addChild p c).nodeOf k =
      (s.updateNode c fun n => { n with parent := some p }).nodeOf k := rfl
  rw [h, nodeOf_updateNode]

theorem nodeOf_removeParent (s : Scene) (c k : ℕ) :
    (s.removeParent c).nodeOf k =
      if k = c then (s.nodeOf k).map (fun n => { n with parent := none })
      else s.nodeOf k := by
  have h : (s.removeParent c).nodeOf k =
      (s.updateNode c fun n => { n with parent := none }).nodeOf k := rfl
  rw [h, nodeOf_updateNode]

/-! ## C6 -/

/-- C6: `AddSensor` returns false — with the whole state unchanged — exactly
when the external sensor id is already in the sensors map, or the parent id
is neither the world id nor a visuals key, or the rendering-side sensor id is
unknown to the scene; on success with a resolved parent the sensor's parent
link is cleared (`RemoveParent`) before the new attachment (`AddChild`),
leaving it with exactly the new parent. -/
theorem C6_addSensor_contract (st : SMState) (gid rid pid : ℕ) :
    ((addSensor st gid rid pid).1 = false ↔
      ((alook st.sensors gid).isSome = true ∨
        (pid ≠ st.worldId ∧ alook st.visuals pid = none) ∨
        st.scene.sensorById rid = none)) ∧
    ((addSensor st gid rid pid).1 = false → (addSensor st gid rid pid).2 = st) ∧
    (∀ p snode, alook st.sensors gid = none →
      pid ≠ st.worldId → alook st.visuals pid = some p →
      st.scene.sensorById rid = some snode →
      (addSensor st gid rid pid).1 = true ∧
      (addSensor st gid rid pid).2.sensors = aset st.sensors gid snode ∧
      (addSensor st gid rid pid).2.visuals = st.visuals ∧
      (addSensor st gid rid pid).2.lights = st.lights ∧
      (addSensor st gid rid pid).2.scene.log =
        st.scene.log ++ [SceneEvent.removeParent snode, SceneEvent.addChild p snode] ∧
      (∀ nd, st.scene.nodeOf snode = some nd →
        (addSensor st gid rid pid).2.scene.nodeOf snode =
          some { nd with parent := some p })) := by
  by_cases h1 : (alook st.sensors gid).isSome = true
  · obtain ⟨n, hn⟩ := Option.isSome_iff_exists.mp h1
    refine ⟨by simp [addSensor, hn], by simp [addSensor, hn], ?_⟩
    intro p snode hs
    rw [hs] at hn
    exact absurd hn (by simp)
  · have hn : alook st.sensors gid = none := by
      cases h : alook st.sensors gid with
      | none => rfl
      | some v => rw [h] at h1; exact absurd rfl h1
    by_cases hw : pid = st.worldId
    · cases hsen : st.scene.sensorById rid with
      | none =>
        refine ⟨by simp [addSensor, resolveParent, hn, hw, hsen], ?_, ?_⟩
        · simp [addSensor, resolveParent, hn, hw, hsen]
        · intro p snode _ hpw _ _
          exact absurd hw hpw
      | some snode =>
        refine ⟨by simp [addSensor, resolveParent, hn, hw, hsen, h1], ?_, ?_⟩
        · simp [addSensor, resolveParent, hn, hw, hsen]
        · intro p snode' _ hpw _ _
          exact absurd hw hpw
    · cases hv : alook st.visuals pid with
      | none =>
        refine ⟨by simp [addSensor, resolveParent, hn, hw, hv], ?_, ?_⟩
        · simp [addSensor, resolveParent, hn, hw, hv]
        · intro p snode _ _ hv' _
          exact absurd hv' (by simp)
      | some p =>
        cases hsen : st.scene.sensorById rid with
        | none =>
          refine ⟨by simp [addSensor, resolveParent, hn, hw, hv, hsen], ?_, ?_⟩
          · simp [addSensor, resolveParent, hn, hw, hv, hsen]
          · intro p' snode _ _ hv' hsen'
            exact absurd hsen' (by simp)
        | some snode =>
          have hrun : addSensor st gid rid pid =
              (true, { st with
                scene := (st.scene.removeParent snode).addChild p snode,
                sensors := aset st.sensors gid snode }) := by
            simp [addSensor, resolveParent, hn, hw, hv, hsen]
          refine ⟨by simp [hrun, hv, hsen, h1, hw], by simp [hrun], ?_⟩
          intro p' snode' _ _ hv' hsen'
          obtain rfl : p = p' := by injection hv'
          obtain rfl : snode = snode' := by injection hsen'
          refine ⟨by simp [hrun], by simp [hrun], by simp [hrun], by simp [hrun],
            by simp [hrun, Scene.addChild, Scene.removeParent, Scene.updateNode], ?_⟩
          intro nd hnd
          rw [hrun]
          show ((st.scene.removeParent snode).addChild p snode).nodeOf snode = _
          rw [nodeOf_addChild, if_pos rfl, nodeOf_removeParent, if_pos rfl, hnd]
          rfl

/-- C6 (witness): re-parenting sensor 50 (node 2) under visual entity 1
(node 1) succeeds, logging RemoveParent before AddChild, and the sensor ends
with parent node 1. -/
theorem C6_witness :
    (addSensor stSensor 9 50 1).1 = true ∧
      (addSensor stSensor 9 50 1).2.scene.log =
        stSensor.scene.log ++ [SceneEvent.removeParent 2, SceneEvent.addChild 1 2] ∧
      (addSensor stSensor 9 50 1).2.scene.nodeOf 2 =
        some { name := "cam", kind := .sensor, parent := some 1 } := by
  have h := (C6_addSensor_contract stSensor 9 50 1).2.2 1 2 (by decide) (by decide)
    (by decide) (by decide)
  refine ⟨h.1, h.2.2.2.2.1, ?_⟩
  have h2 := h.2.2.2.2.2 { name := "cam", kind := .sensor, parent := some 0 }
    (by decide)
  simpa using h2

/-! ## C5 -/

/-- C5: when geometry resolution produces no geometry (mesh shape with empty
uri, or an unsupported shape kind), `CreateVisual` with a fresh id, a
resolvable parent and a geometry description present still creates the
visual node, registers it under the id, attaches it under the resolved
parent, and returns it non-empty — with no geometry attached to it and the
scene's geometry/material stores untouched. -/
theorem C5_geometry_failure_still_creates (st : SMState)
    (ff : String → Option String) (id pid : ℕ) (v : SdfVisual) (g : GeomDesc)
    (parent : Option ℕ)
    (h1 : alook st.visuals id = none)
    (h2 : resolveParent st pid = some parent)
    (h3 : v.geom = some g)
    (h4 : (∃ sc, g = GeomDesc.mesh "" sc) ∨ g = GeomDesc.unsupported) :
    match createVisual st ff id v pid with
    | some (some r, st') =>
      r = st.scene.fresh ∧
      alook st'.visuals id = some r ∧
      st'.scene.nodeOf r =
        some { name := displayName st.scene parent v.name id, kind := .visual,
               pose := v.pose, parent := parent } ∧
      st'.scene.geoms = st.scene.geoms ∧
      st'.scene.mats = st.scene.mats ∧
      st'.scene.matNames = st.scene.matNames
    | _ => False := by
  have run : ∀ s : Scene, loadGeometry s g = (none, v3one, poseZero, s) := by
    rcases h4 with ⟨sc, rfl⟩ | rfl <;> intro s <;> simp [loadGeometry]
  rcases parent with _ | p <;>
    simp [createVisual, h1, h2, h3, run, finishVisual, Scene.setLocalPose,
      nodeOf_addChild, nodeOf_updateNode, nodeOf_createNode, alook_aset_self,
      Scene.createNode, Scene.updateNode, Scene.addChild, Scene.geomOf,
      displayName, Scene.nodeOf, alook]

/-- C5 (witness): unsupported geometry under parent entity 1 still creates,
registers and attaches the visual node. -/
theorem C5_witness :
    match createVisual stModel1 ffNone 4 visUnsup 1 with
    | some (some r, st') =>
      r = stModel1.scene.fresh ∧
      alook st'.visuals 4 = some r ∧
      st'.scene.nodeOf r =
        some { name := displayName stModel1.scene (some 1) visUnsup.name 4,
               kind := .visual, pose := visUnsup.pose, parent := some 1 } ∧
      st'.scene.geoms = stModel1.scene.geoms ∧
      st'.scene.mats = stModel1.scene.mats ∧
      st'.scene.matNames = stModel1.scene.matNames
    | _ => False :=
  C5_geometry_failure_still_creates stModel1 ffNone 4 1 visUnsup .unsupported
    (some 1) (by decide) (by decide) rfl (Or.inr rfl)

/-! ## Frame lemmas: material resolution never touches the node store -/

theorem setMapIfFound_nodes (s : Scene) (ff : String → Option String) (mref : ℕ)
    (path : String) (ap : RMaterial → String → RMaterial) :
    (setMapIfFound s ff mref path ap).nodes = s.nodes := by
  unfold setMapIfFound
  split
  · rfl
  · split <;> simp [Scene.updateMat]

theorem setMapIfFound_geoms (s : Scene) (ff : String → Option String) (mref : ℕ)
    (path : String) (ap : RMaterial → String → RMaterial) :
    (setMapIfFound s ff mref path ap).geoms = s.geoms := by
  unfold setMapIfFound
  split
  · rfl
  · split <;> simp [Scene.updateMat]

theorem loadMaterial_frame (s : Scene) (ff : String → Option String)
    (sm : SdfMaterial) (mr : ℕ) (s' : Scene)
    (h : loadMaterial s ff sm = some (mr, s')) :
    s'.nodes = s.nodes ∧ s'.geoms = s.geoms := by
  unfold loadMaterial at h
  rcases hp : sm.pbr with _ | pbr
  · simp only [hp, Scene.createMaterial, Option.some.injEq, Prod.mk.injEq] at h
    obtain ⟨-, h2⟩ := h
    subst h2
    simp [Scene.updateMat]
  · rcases hm : pbr.metal with _ | metal
    · simp only [hp, hm, Scene.createMaterial] at h
      exact absurd h (by simp)
    · simp only [hp, hm, Scene.createMaterial, Option.some.injEq,
        Prod.mk.injEq] at h
      obtain ⟨-, h2⟩ := h
      subst h2
      simp [setMapIfFound_nodes, setMapIfFound_geoms, Scene.updateMat]

theorem visualMaterial_frame (s : Scene) (ff : String → Option String)
    (dm : Option SdfMaterial) (g : GeomDesc) (gref : ℕ) (mat : Option ℕ)
    (s' : Scene) (h : visualMaterial s ff dm g gref = some (mat, s')) :
    s'.nodes = s.nodes ∧ s'.geoms = s.geoms := by
  rcases dm with _ | sm
  · unfold visualMaterial at h
    by_cases hm : g.isMesh = true
    · simp only [hm, if_true, Option.some.injEq, Prod.mk.injEq] at h
      obtain ⟨-, h2⟩ := h
      subst h2
      exact ⟨rfl, rfl⟩
    · simp only [Bool.not_eq_true] at hm
      simp only [hm, Bool.false_eq_true, if_false] at h
      rcases hg : s.materialByName "ign-grey" with _ | mref
      · simp only [hg, Scene.createMaterialNamed, Option.some.injEq,
          Prod.mk.injEq] at h
        obtain ⟨-, h2⟩ := h
        subst h2
        simp [Scene.updateMat]
      · simp only [hg, Option.some.injEq, Prod.mk.injEq] at h
        obtain ⟨-, h2⟩ := h
        subst h2
        exact ⟨rfl, rfl⟩
  · unfold visualMaterial at h
    rcases hlm : loadMaterial s ff sm with _ | ⟨mr, s''⟩
    · simp only [hlm] at h
      exact absurd h (by simp)
    · simp only [hlm, Option.some.injEq, Prod.mk.injEq] at h
      obtain ⟨-, h2⟩ := h
      subst h2
      exact loadMaterial_frame s ff sm mr s'' hlm

theorem alook_mapUpdate {A : Type} (l : List (ℕ × A)) (r k : ℕ) (f : A → A) :
    alook (l.map fun p => if p.1 = r then (p.1, f p.2) else p) k =
      if k = r then (alook l k).map f else alook l k := by
  by_cases h : k = r
  · subst h
    simp [alook_mapUpdate_self]
  · simp [h, alook_mapUpdate_ne _ _ _ _ h]

theorem visualMaterial_none_ne (s : Scene) (ff : String → Option String)
    (g : GeomDesc) (gref : ℕ) : visualMaterial s ff none g gref ≠ none := by
  unfold visualMaterial
  by_cases hm : g.isMesh = true
  · simp [hm]
  · simp only [Bool.not_eq_true] at hm
    rcases hg : s.materialByName "ign-grey" with _ | mref <;> simp [hm, hg]

theorem createVisual_run_name (st : SMState) (ff : String → Option String)
    (id pid : ℕ) (v : SdfVisual) (g : GeomDesc) (parent : Option ℕ)
    (h1 : alook st.visuals id = none)
    (hp : resolveParent st pid = some parent)
    (h3 : v.geom = some g)
    (hres : resolvesGeom g = true) :
    match createVisual st ff id v pid with
    | some (some r, st') =>
        st'.scene.nodeName r =
          (if isZeroPose (correctiveOf g) = true then
            displayName st.scene parent v.name id
          else displayName st.scene parent v.name id ++ "_geom") ∧
        alook st'.visuals id = some r
    | some (none, _) => False
    | none => v.material ≠ none := by
  rcases g with size | ⟨rad, len⟩ | ⟨sx, sy, n⟩ | rad | ⟨uri, msc⟩ | _
  case unsupported => simp [resolvesGeom] at hres
  case mesh =>
    have huri : ¬uri = "" := by simpa [resolvesGeom] using hres
    simp only [correctiveOf, isZeroPose_poseZero, if_true]
    simp only [createVisual, h1, hp, h3, Option.isSome_none, Bool.false_eq_true,
      if_false, loadGeometry, huri, Scene.createGeom, Scene.createNode,
      Scene.setLocalPose, Scene.updateNode, isZeroPose_poseZero, if_true]
    split
    · rename_i r st' heq
      split at heq
      · simp at heq
      · rename_i mat s7 hvm
        have hfr := (visualMaterial_frame _ _ _ _ _ _ _ hvm).1
        simp only [finishVisual, Option.some.injEq, Prod.mk.injEq] at heq
        obtain ⟨hr, hst⟩ := heq
        subst hr
        subst hst
        constructor
        · rcases parent with _ | pp <;>
            simp [-List.map_map, Scene.nodeName, Scene.addChild, Scene.nodeOf,
              Scene.setGeomMaterial, Scene.updateGeom, hfr, Scene.addGeometry,
              Scene.setLocalScale, Scene.updateNode, alook_mapUpdate,
              alook_cons_self]
        · rcases parent with _ | pp <;> simp [alook_aset_self]
    · rename_i st' heq
      split at heq
      · simp at heq
      · rename_i mat s7 hvm
        simp only [finishVisual, Option.some.injEq, Prod.mk.injEq] at heq
        exact absurd heq.1 (by simp)
    · rename_i heq
      split at heq
      · rename_i hvm
        intro hmn
        rw [hmn] at hvm
        exact visualMaterial_none_ne _ _ _ _ hvm
      · simp at heq
  case plane =>
    by_cases hz : isZeroPose ⟨v3zero, from2AxesZ (v3normalized n)⟩ = true
    · simp only [correctiveOf, hz, if_true]
      simp only [createVisual, h1, hp, h3, Option.isSome_none,
        Bool.false_eq_true, if_false, loadGeometry, Scene.createGeom,
        Scene.createNode, Scene.setLocalPose, Scene.updateNode, hz, if_true]
      split
      · rename_i r st' heq
        split at heq
        · simp at heq
        · rename_i mat s7 hvm
          have hfr := (visualMaterial_frame _ _ _ _ _ _ _ hvm).1
          simp only [finishVisual, Option.some.injEq, Prod.mk.injEq] at heq
          obtain ⟨hr, hst⟩ := heq
          subst hr
          subst hst
          constructor
          · rcases parent with _ | pp <;>
              simp [-List.map_map, Scene.nodeName, Scene.addChild, Scene.nodeOf,
                Scene.setGeomMaterial, Scene.updateGeom, hfr, Scene.addGeometry,
                Scene.setLocalScale, Scene.updateNode, alook_mapUpdate,
                alook_cons_self]
          · rcases parent with _ | pp <;> simp [alook_aset_self]
      · rename_i st' heq
        split at heq
        · simp at heq
        · rename_i mat s7 hvm
          simp only [finishVisual, Option.some.injEq, Prod.mk.injEq] at heq
          exact absurd heq.1 (by simp)
      · rename_i heq
        split at heq
        · rename_i hvm
          intro hmn
          rw [hmn] at hvm
          exact visualMaterial_none_ne _ _ _ _ hvm
        · simp at heq
    · have hz' : isZeroPose ⟨v3zero, from2AxesZ (v3normalized n)⟩ = false := by
        simpa using hz
      simp only [correctiveOf, hz', Bool.false_eq_true, if_false]
      simp only [createVisual, h1, hp, h3, Option.isSome_none,
        Bool.false_eq_true, if_false, loadGeometry, Scene.createGeom,
        Scene.createNode, Scene.setLocalPose, Scene.updateNode, hz']
      split
      · rename_i r st' heq
        split at heq
        · simp at heq
        · rename_i mat s7 hvm
          have hfr := (visualMaterial_frame _ _ _ _ _ _ _ hvm).1
          simp only [finishVisual, Option.some.injEq, Prod.mk.injEq] at heq
          obtain ⟨hr, hst⟩ := heq
          subst hr
          subst hst
          constructor
          · rcases parent with _ | pp <;>
              simp [-List.map_map, Scene.nodeName, Scene.addChild, Scene.nodeOf,
                Scene.setGeomMaterial, Scene.updateGeom, hfr, Scene.addGeometry,
                Scene.setLocalScale, Scene.updateNode, alook_mapUpdate,
                alook_cons_self]
          · rcases parent with _ | pp <;> simp [alook_aset_self]
      · rename_i st' heq
        split at heq
        · simp at heq
        · rename_i mat s7 hvm
          simp only [finishVisual, Option.some.injEq, Prod.mk.injEq] at heq
          exact absurd heq.1 (by simp)
      · rename_i heq
        split at heq
        · rename_i hvm
          intro hmn
          rw [hmn] at hvm
          exact visualMaterial_none_ne _ _ _ _ hvm
        · simp at heq
  all_goals (
    simp only [correctiveOf, isZeroPose_poseZero, if_true]
    simp only [createVisual, h1, hp, h3, Option.isSome_none, Bool.false_eq_true,
      if_false, loadGeometry, Scene.createGeom, Scene.createNode,
      Scene.setLocalPose, Scene.updateNode, isZeroPose_poseZero, if_true]
    split
    · rename_i r st' heq
      split at heq
      · simp at heq
      · rename_i mat s7 hvm
        have hfr := (visualMaterial_frame _ _ _ _ _ _ _ hvm).1
        simp only [finishVisual, Option.some.injEq, Prod.mk.injEq] at heq
        obtain ⟨hr, hst⟩ := heq
        subst hr
        subst hst
        constructor
        · rcases parent with _ | pp <;>
            simp [-List.map_map, Scene.nodeName, Scene.addChild, Scene.nodeOf,
              Scene.setGeomMaterial, Scene.updateGeom, hfr, Scene.addGeometry,
              Scene.setLocalScale, Scene.updateNode, alook_mapUpdate,
              alook_cons_self]
        · rcases parent with _ | pp <;> simp [alook_aset_self]
    · rename_i st' heq
      split at heq
      · simp at heq
      · rename_i mat s7 hvm
        simp only [finishVisual, Option.some.injEq, Prod.mk.injEq] at heq
        exact absurd heq.1 (by simp)
    · rename_i heq
      split at heq
      · rename_i hvm
        intro hmn
        rw [hmn] at hvm
        exact visualMaterial_none_ne _ _ _ _ hvm
      · simp at heq)

/-- When the geometry fails to resolve (unsupported shape or empty mesh
uri), `CreateVisual` still succeeds and registers the original visual node
under its plain scoped display name (lines 239-249). -/
theorem createVisual_fail_name (st : SMState) (ff : String → Option String)
    (id pid : ℕ) (v : SdfVisual) (g : GeomDesc) (parent : Option ℕ)
    (h1 : alook st.visuals id = none)
    (hp : resolveParent st pid = some parent)
    (h3 : v.geom = some g)
    (hres : resolvesGeom g = false) :
    match createVisual st ff id v pid with
    | some (some r, st') =>
        st'.scene.nodeName r = displayName st.scene parent v.name id ∧
        alook st'.visuals id = some r
    | _ => False := by
  rcases g with size | ⟨rad, len⟩ | ⟨sx, sy, n⟩ | rad | ⟨uri, msc⟩ | _ <;>
    try simp [resolvesGeom] at hres
  case mesh =>
    simp only [createVisual, h1, hp, h3, Option.isSome_none, Bool.false_eq_true,
      if_false, loadGeometry, hres, if_true, finishVisual]
    rcases parent with _ | pp <;>
      simp [-List.map_map, Scene.nodeName, Scene.addChild, Scene.nodeOf,
        Scene.createNode, Scene.setLocalPose, Scene.updateNode,
        alook_mapUpdate, alook_cons_self, alook_aset_self]
  case unsupported =>
    simp only [createVisual, h1, hp, h3, Option.isSome_none, Bool.false_eq_true,
      if_false, loadGeometry, finishVisual]
    rcases parent with _ | pp <;>
      simp [-List.map_map, Scene.nodeName, Scene.addChild, Scene.nodeOf,
        Scene.createNode, Scene.setLocalPose, Scene.updateNode,
        alook_mapUpdate, alook_cons_self, alook_aset_self]

/-- Only a plane can have a nonzero corrective pose, and planes always
resolve a geometry. -/
theorem corrective_nonzero_resolves (g : GeomDesc)
    (h : isZeroPose (correctiveOf g) = false) : resolvesGeom g = true := by
  cases g <;> simp_all [correctiveOf, resolvesGeom, isZeroPose_poseZero]

theorem displayName_some (sc : Scene) (p : ℕ) (nm : String) (id : ℕ) :
    displayName sc (some p) nm id =
      sc.nodeName p ++ "::" ++ (if nm = "" then toString id else nm) := rfl

theorem displayName_none (sc : Scene) (nm : String) (id : ℕ) :
    displayName sc none nm id = (if nm = "" then toString id else nm) := rfl

/-! ## C9 -/

/-- C9 (counterexample): a successful `CreateVisual` with a resolved parent
whose corrective pose is nonzero registers and returns the intermediate
node, whose name is `parent.Name() + "::" + n + "_geom"` — not
`parent.Name() + "::" + n` as the claim states. -/
theorem C9_counterexample :
    resultNodeName (createVisual stModel1 ffNone 4 visPlaneX 1) =
        some "m::vis_geom" ∧
      "m::vis_geom" ≠ "m" ++ "::" ++ "vis" := by
  have hu : v3dot ⟨1, 0, 0⟩ ⟨1, 0, 0⟩ = 1 := by simp [v3dot]
  have hz : isZeroPose (correctiveOf (GeomDesc.plane 1 1 ⟨1, 0, 0⟩)) = false := by
    simp only [correctiveOf, v3normalized_unit _ hu]
    exact corrective_ne_zero _ hu (by decide)
  have h := createVisual_run_name stModel1 ffNone 4 1 visPlaneX
    (GeomDesc.plane 1 1 ⟨1, 0, 0⟩) (some 1) (by decide) (by decide) rfl (by decide)
  refine ⟨?_, by decide⟩
  rcases hrun : createVisual stModel1 ffNone 4 visPlaneX 1 with _ | ⟨_ | r, st'⟩ <;>
    rw [hrun] at h
  · exact absurd rfl h
  · exact h.elim
  · rw [hz] at h
    simp only [resultNodeName, h.1, Bool.false_eq_true, if_false]
    rw [displayName_some]
    decide

/-- C9 (amended): for every successful CreateModel / CreateLink /
CreateVisual the registered node's name is `parent.Name() + "::" + n` when a
parent was resolved and `n` alone otherwise, where `n` is the description's
name if non-empty and the decimal form of the id otherwise — except that a
CreateVisual whose geometry has a nonzero corrective pose rebinds to the
intermediate node, whose name additionally carries the `"_geom"` suffix
(in both parent cases); visuals whose geometry fails to resolve have a zero
corrective pose and keep the plain scoped name. -/
theorem C9_node_naming (st : SMState) (ff : String → Option String)
    (id pid : ℕ) (m : SdfModel) (l : SdfLink) (v : SdfVisual) (p : ℕ) :
    (alook st.visuals id = none → resolveParent st pid = some (some p) →
      match createModel st id m pid with
      | (some r, st') => st'.scene.nodeName r =
          st.scene.nodeName p ++ "::" ++ (if m.name = "" then toString id else m.name)
      | (none, _) => False) ∧
    (alook st.visuals id = none → resolveParent st pid = some (some p) →
      match createLink st id l pid with
      | (some r, st') => st'.scene.nodeName r =
          st.scene.nodeName p ++ "::" ++ (if l.name = "" then toString id else l.name)
      | (none, _) => False) ∧
    (∀ g, alook st.visuals id = none → resolveParent st pid = some (some p) →
      v.geom = some g → isZeroPose (correctiveOf g) = true →
      match createVisual st ff id v pid with
      | some (some r, st') => st'.scene.nodeName r =
          st.scene.nodeName p ++ "::" ++ (if v.name = "" then toString id else v.name)
      | some (none, _) => False
      | none => True) ∧
    (∀ g, alook st.visuals id = none → resolveParent st pid = some (some p) →
      v.geom = some g → isZeroPose (correctiveOf g) = false →
      match createVisual st ff id v pid with
      | some (some r, st') => st'.scene.nodeName r =
          (st.scene.nodeName p ++ "::" ++ (if v.name = "" then toString id else v.name))
            ++ "_geom"
      | some (none, _) => False
      | none => True) ∧
    (alook st.visuals id = none → resolveParent st pid = some none →
      match createModel st id m pid with
      | (some r, st') => st'.scene.nodeName r =
          (if m.name = "" then toString id else m.name)
      | (none, _) => False) ∧
    (alook st.visuals id = none → resolveParent st pid = some none →
      match createLink st id l pid with
      | (some r, st') => st'.scene.nodeName r =
          (if l.name = "" then toString id else l.name)
      | (none, _) => False) ∧
    (∀ g, alook st.visuals id = none → resolveParent st pid = some none →
      v.geom = some g → isZeroPose (correctiveOf g) = true →
      match createVisual st ff id v pid with
      | some (some r, st') => st'.scene.nodeName r =
          (if v.name = "" then toString id else v.name)
      | some (none, _) => False
      | none => True) ∧
    (∀ g, alook st.visuals id = none → resolveParent st pid = some none →
      v.geom = some g → isZeroPose (correctiveOf g) = false →
      match createVisual st ff id v pid with
      | some (some r, st') => st'.scene.nodeName r =
          (if v.name = "" then toString id else v.name) ++ "_geom"
      | some (none, _) => False
      | none => True) := by
  refine ⟨?_, ?_, ?_, ?_, ?_, ?_, ?_, ?_⟩
  · intro h1 hp
    simp [createModel, h1, hp, displayName, Scene.setLocalPose, Scene.nodeName,
      nodeOf_addChild, nodeOf_updateNode, nodeOf_createNode, Scene.createNode,
      Scene.updateNode, Scene.addChild, Scene.nodeOf, alook]
  · intro h1 hp
    simp [createLink, h1, hp, displayName, Scene.setLocalPose, Scene.nodeName,
      nodeOf_addChild, nodeOf_updateNode, nodeOf_createNode, Scene.createNode,
      Scene.updateNode, Scene.addChild, Scene.nodeOf, alook]
  · intro g h1 hp h3 hz
    by_cases hres : resolvesGeom g = true
    · have h := createVisual_run_name st ff id pid v g (some p) h1 hp h3 hres
      rcases hrun : createVisual st ff id v pid with _ | ⟨_ | r, st'⟩ <;>
        rw [hrun] at h
      · trivial
      · exact h
      · rw [hz, if_pos rfl, displayName_some] at h
        exact h.1
    · have hres' : resolvesGeom g = false := by simpa using hres
      have h := createVisual_fail_name st ff id pid v g (some p) h1 hp h3 hres'
      rcases hrun : createVisual st ff id v pid with _ | ⟨_ | r, st'⟩ <;>
        rw [hrun] at h
      · trivial
      · exact h
      · rw [displayName_some] at h
        exact h.1
  · intro g h1 hp h3 hz
    have hres := corrective_nonzero_resolves g hz
    have h := createVisual_run_name st ff id pid v g (some p) h1 hp h3 hres
    rcases hrun : createVisual st ff id v pid with _ | ⟨_ | r, st'⟩ <;>
      rw [hrun] at h
    · trivial
    · exact h
    · rw [hz] at h
      rw [displayName_some] at h
      simpa using h.1
  · intro h1 hp
    simp [createModel, h1, hp, displayName, Scene.setLocalPose, Scene.nodeName,
      nodeOf_addChild, nodeOf_updateNode, nodeOf_createNode, Scene.createNode,
      Scene.updateNode, Scene.addChild, Scene.nodeOf, alook]
  · intro h1 hp
    simp [createLink, h1, hp, displayName, Scene.setLocalPose, Scene.nodeName,
      nodeOf_addChild, nodeOf_updateNode, nodeOf_createNode, Scene.createNode,
      Scene.updateNode, Scene.addChild, Scene.nodeOf, alook]
  · intro g h1 hp h3 hz
    by_cases hres : resolvesGeom g = true
    · have h := createVisual_run_name st ff id pid v g none h1 hp h3 hres
      rcases hrun : createVisual st ff id v pid with _ | ⟨_ | r, st'⟩ <;>
        rw [hrun] at h
      · trivial
      · exact h
      · rw [hz, if_pos rfl, displayName_none] at h
        exact h.1
    · have hres' : resolvesGeom g = false := by simpa using hres
      have h := createVisual_fail_name st ff id pid v g none h1 hp h3 hres'
      rcases hrun : createVisual st ff id v pid with _ | ⟨_ | r, st'⟩ <;>
        rw [hrun] at h
      · trivial
      · exact h
      · rw [displayName_none] at h
        exact h.1
  · intro g h1 hp h3 hz
    have hres := corrective_nonzero_resolves g hz
    have h := createVisual_run_name st ff id pid v g none h1 hp h3 hres
    rcases hrun : createVisual st ff id v pid with _ | ⟨_ | r, st'⟩ <;>
      rw [hrun] at h
    · trivial
    · exact h
    · rw [hz] at h
      rw [displayName_none] at h
      simpa using h.1

/-- C9 (witness): box visual entity 4 named "vis" under parent entity 1
(node "m") is registered under the name "m::vis". -/
theorem C9_witness :
    match createVisual stModel1 ffNone 4 exVisual 1 with
    | some (some r, st') => st'.scene.nodeName r =
        stModel1.scene.nodeName 1 ++ "::" ++
          (if exVisual.name = "" then toString 4 else exVisual.name)
    | some (none, _) => False
    | none => True :=
  (C9_node_naming stModel1 ffNone 4 1 exModel exLink exVisual 1).2.2.1
    (GeomDesc.box ⟨1, 1, 1⟩) (by decide) (by decide) rfl (by decide)

/-! ## C2 -/

/-- C2: for a plane shape with a unit normal, the corrective local pose
returned by `LoadGeometry` rotates +Z onto the normal; it is the identity
(zero) pose exactly for normal (0,0,1), and for normal (1,0,0) it is the
90-degree rotation about +Y mapping +Z to +X, +X to -Z and fixing +Y; and
whenever the corrective pose is nonzero, `CreateVisual` creates the extra
intermediate node named `<visual name> + "_geom"` whose local pose is the
composition of the visual's pose and the corrective pose, attaches the plane
geometry and the scale to that intermediate node, registers the intermediate
node (not the original visual node, which keeps no geometry) under the
entity id, and attaches it under the resolved parent. -/
theorem C2_plane_corrective (n : Vec3) (hu : v3dot n n = 1) :
    (∀ (s : Scene) (sx sy : ℚ),
      quatRotate ((loadGeometry s (GeomDesc.plane sx sy n)).2.2.1).rot unitZ = n) ∧
    (n = unitZ → ∀ (s : Scene) (sx sy : ℚ),
      isZeroPose (loadGeometry s (GeomDesc.plane sx sy n)).2.2.1 = true) ∧
    (n = unitX → ∀ (s : Scene) (sx sy : ℚ),
      quatRotate ((loadGeometry s (GeomDesc.plane sx sy n)).2.2.1).rot unitZ = unitX ∧
      quatRotate ((loadGeometry s (GeomDesc.plane sx sy n)).2.2.1).rot unitX = ⟨0, 0, -1⟩ ∧
      quatRotate ((loadGeometry s (GeomDesc.plane sx sy n)).2.2.1).rot unitY = unitY) ∧
    (n ≠ unitZ → ∀ (st : SMState) (ff : String → Option String)
      (id pid p : ℕ) (v : SdfVisual) (sx sy : ℚ),
      alook st.visuals id = none →
      resolveParent st pid = some (some p) →
      v.geom = some (GeomDesc.plane sx sy n) →
      match createVisual st ff id v pid with
      | some (some r, st') =>
          st'.scene.nodeName r =
            (st.scene.nodeName p ++ "::" ++
              (if v.name = "" then toString id else v.name)) ++ "_geom" ∧
          alook st'.visuals id = some r ∧
          (∃ nd, st'.scene.nodeOf r = some nd ∧
            nd.pose = poseMul v.pose (correctiveOf (GeomDesc.plane sx sy n)) ∧
            nd.scale = ⟨sx, sy, 1⟩ ∧
            nd.parent = some p ∧
            ∃ gref, nd.geoms = [gref] ∧
              (st'.scene.geomOf gref).map GeomObj.shape = some ShapeKind.plane) ∧
          (∃ nd0, st'.scene.nodeOf st.scene.fresh = some nd0 ∧
            st.scene.fresh ≠ r ∧
            nd0.name = st.scene.nodeName p ++ "::" ++
              (if v.name = "" then toString id else v.name) ∧
            nd0.geoms = [] ∧ nd0.parent = none)
      | some (none, _) => False
      | none => v.material ≠ none) := by
  refine ⟨?_, ?_, ?_, ?_⟩
  · intro s sx sy
    simp only [loadGeometry, Scene.createGeom, v3normalized_unit n hu]
    exact quatRotate_from2AxesZ n hu
  · rintro rfl s sx sy
    simp only [loadGeometry, Scene.createGeom, v3normalized_unit _ hu]
    norm_num [isZeroPose, from2AxesZ, unitZ]
  · rintro rfl s sx sy
    simp only [loadGeometry, Scene.createGeom, v3normalized_unit _ hu]
    norm_num [quatRotate, from2AxesZ, unitX, unitY, unitZ, qmul, qconj, qnormSq]
  · intro hz st ff id pid p v sx sy h1 hp h3
    have hz' : isZeroPose ⟨v3zero, from2AxesZ (v3normalized n)⟩ = false := by
      rw [v3normalized_unit n hu]
      exact corrective_ne_zero n hu hz
    have hne2 : ¬st.scene.fresh = st.scene.fresh + 1 + 1 := by omega
    have hne2' : ¬st.scene.fresh + 1 + 1 = st.scene.fresh := by omega
    have hne1 : ¬st.scene.fresh + 1 + 1 = st.scene.fresh + 1 := by omega
    have hne1' : ¬st.scene.fresh + 1 = st.scene.fresh + 1 + 1 := by omega
    simp only [createVisual, h1, hp, h3, Option.isSome_none, Bool.false_eq_true,
      if_false, loadGeometry, Scene.createGeom, Scene.createNode,
      Scene.setLocalPose, Scene.updateNode, hz', Scene.addGeometry,
      Scene.setLocalScale]
    simp only [-List.map_map, List.map_cons, eq_self_iff_true, if_true, hne2,
      hne2', hne1, hne1', if_false]
    split
    · rename_i r st' heq
      split at heq
      · simp at heq
      · rename_i mat s7 hvm
        have hfr1 := (visualMaterial_frame _ _ _ _ _ _ _ hvm).1
        have hfr2 := (visualMaterial_frame _ _ _ _ _ _ _ hvm).2
        simp only [finishVisual, Option.some.injEq, Prod.mk.injEq] at heq
        obtain ⟨hr, hst⟩ := heq
        subst hr
        subst hst
        refine ⟨?_, ?_, ?_, ?_⟩
        · simp [-List.map_map, Scene.nodeName, Scene.addChild, Scene.nodeOf,
            Scene.setGeomMaterial, Scene.updateGeom, Scene.updateNode, hfr1,
            alook_mapUpdate, alook_cons_self, displayName, hne2, hne2', hne1,
            hne1']
        · simp [alook_aset_self]
        · simp [-List.map_map, Scene.addChild, Scene.nodeOf,
            Scene.setGeomMaterial, Scene.updateGeom, Scene.updateNode, hfr1,
            hfr2, alook_mapUpdate, alook_cons_self, hne2, hne2', hne1, hne1',
            Scene.geomOf, correctiveOf]
        · simp only [-List.map_map, Scene.addChild, Scene.nodeOf,
            Scene.setGeomMaterial, Scene.updateGeom, Scene.updateNode, hfr1,
            List.map_cons, eq_self_iff_true, if_true, hne2, hne2', hne1,
            hne1', if_false]
          rw [alook_cons_ne _ (st.scene.fresh + 1 + 1) st.scene.fresh _
            (by omega), alook_cons_self]
          exact ⟨_, rfl, by omega, rfl, rfl, rfl⟩
    · rename_i st' heq
      split at heq
      · simp at heq
      · rename_i mat s7 hvm
        simp only [finishVisual, Option.some.injEq, Prod.mk.injEq] at heq
        exact absurd heq.1 (by simp)
    · rename_i heq
      split at heq
      · rename_i hvm
        intro hmn
        rw [hmn] at hvm
        exact visualMaterial_none_ne _ _ _ _ hvm
      · simp at heq

/-- C2 (witness): normal (1,0,0): the corrective rotation maps +Z to +X
(90° about +Y), and the concrete plane visual under parent entity 1 gets its
`"_geom"` intermediate node holding geometry, scale, composed pose and the
registration. -/
theorem C2_witness :
    v3dot ⟨1, 0, 0⟩ ⟨1, 0, 0⟩ = 1 ∧
    (quatRotate ((loadGeometry Scene.init (GeomDesc.plane 2 3 ⟨1, 0, 0⟩)).2.2.1).rot
        unitZ = unitX ∧
      quatRotate ((loadGeometry Scene.init (GeomDesc.plane 2 3 ⟨1, 0, 0⟩)).2.2.1).rot
        unitX = ⟨0, 0, -1⟩ ∧
      quatRotate ((loadGeometry Scene.init (GeomDesc.plane 2 3 ⟨1, 0, 0⟩)).2.2.1).rot
        unitY = unitY) ∧
    (match createVisual stModel1 ffNone 4 visPlaneX 1 with
     | some (some r, st') =>
         st'.scene.nodeName r =
           (stModel1.scene.nodeName 1 ++ "::" ++
             (if visPlaneX.name = "" then toString 4 else visPlaneX.name)) ++ "_geom" ∧
         alook st'.visuals 4 = some r ∧
         (∃ nd, st'.scene.nodeOf r = some nd ∧
           nd.pose = poseMul visPlaneX.pose
             (correctiveOf (GeomDesc.plane 1 1 ⟨1, 0, 0⟩)) ∧
           nd.scale = ⟨1, 1, 1⟩ ∧
           nd.parent = some 1 ∧
           ∃ gref, nd.geoms = [gref] ∧
             (st'.scene.geomOf gref).map GeomObj.shape = some ShapeKind.plane) ∧
         (∃ nd0, st'.scene.nodeOf stModel1.scene.fresh = some nd0 ∧
           stModel1.scene.fresh ≠ r ∧
           nd0.name = stModel1.scene.nodeName 1 ++ "::" ++
             (if visPlaneX.name = "" then toString 4 else visPlaneX.name) ∧
           nd0.geoms = [] ∧ nd0.parent = none)
     | some (none, _) => False
     | none => visPlaneX.material ≠ none) := by
  have hu : v3dot ⟨1, 0, 0⟩ ⟨1, 0, 0⟩ = 1 := by simp [v3dot]
  have h := C2_plane_corrective ⟨1, 0, 0⟩ hu
  exact ⟨hu, h.2.2.1 rfl Scene.init 2 3,
    h.2.2.2 (by decide) stModel1 ffNone 4 1 1 visPlaneX 1 1 (by decide)
      (by decide) rfl⟩

theorem alook_map_preserve {A : Type} (l : List (ℕ × A)) (k : ℕ)
    (u : ℕ × A → ℕ × A) (hid : ∀ p, p.1 = k → u p = p)
    (hkey : ∀ p, (u p).1 = p.1) :
    alook (l.map u) k = alook l k := by
  induction l with
  | nil => rfl
  | cons a t ih =>
    rw [List.map_cons]
    by_cases hk : k = a.1
    · have h2 : u a = a := hid a hk.symm
      rw [h2]
      rcases a with ⟨a1, a2⟩
      subst hk
      rw [alook_cons_self, alook_cons_self]
    · have h1 : (u a).1 = a.1 := hkey a
      have : k ≠ (u a).1 := by
        rw [h1]
        exact hk
      calc alook (u a :: t.map u) k = alook (t.map u) k := by
            rcases hu : u a with ⟨ua1, ua2⟩
            exact alook_cons_ne _ _ _ _ (by rw [hu] at this; exact this)
        _ = alook t k := ih
        _ = alook (a :: t) k := by
            rcases a with ⟨a1, a2⟩
            exact (alook_cons_ne _ _ _ _ (by simpa using hk)).symm

set_option maxRecDepth 8000 in
set_option maxHeartbeats 2000000 in
theorem createVisual_default_run (st : SMState) (ff : String → Option String)
    (id pid : ℕ) (v : SdfVisual) (g : GeomDesc) (parent : Option ℕ)
    (h1 : alook st.visuals id = none)
    (hp : resolveParent st pid = some parent)
    (h3 : v.geom = some g) (hm : v.material = none)
    (hb : isBasicShape g = true) :
    match createVisual st ff id v pid with
    | some (some r, st') =>
        st'.worldId = st.worldId ∧
        st'.visuals = aset st.visuals id r ∧
        st.scene.fresh ≤ r ∧ r < st'.scene.fresh ∧
        (∃ gref, st.scene.fresh ≤ gref ∧ gref < st'.scene.fresh ∧
          (∃ nd, st'.scene.nodeOf r = some nd ∧ nd.geoms = [gref]) ∧
          (match st.scene.materialByName "ign-grey" with
           | some m0 =>
               (st'.scene.geomOf gref).map GeomObj.material = some (some m0) ∧
               st'.scene.matNames = st.scene.matNames ∧
               (∀ k, st'.scene.matOf k = st.scene.matOf k)
           | none =>
               ∃ mref, st.scene.fresh ≤ mref ∧ mref < st'.scene.fresh ∧
                 (st'.scene.geomOf gref).map GeomObj.material = some (some mref) ∧
                 st'.scene.matNames = ("ign-grey", mref) :: st.scene.matNames ∧
                 st'.scene.matOf mref = some greyMaterial ∧
                 (∀ k, ¬k = mref → st'.scene.matOf k = st.scene.matOf k))) ∧
        (∀ k, k < st.scene.fresh → st'.scene.nodeOf k = st.scene.nodeOf k) ∧
        (∀ k, k < st.scene.fresh → st'.scene.geomOf k = st.scene.geomOf k)
    | _ => False := by
  rcases parent with _ | pp <;>
  rcases g with size | ⟨rad, len⟩ | ⟨sx, sy, n⟩ | rad | ⟨uri, msc⟩ | _ <;>
    try simp [isBasicShape] at hb
  case none.box =>
    simp only [createVisual, h1, hp, h3, hm, Option.isSome_none,
      Bool.false_eq_true, if_false, loadGeometry, Scene.createGeom,
      Scene.createNode, Scene.setLocalPose, Scene.updateNode,
      isZeroPose_poseZero, if_true, Scene.addGeometry, Scene.setLocalScale,
      visualMaterial, GeomDesc.isMesh, Scene.materialByName]
    split
    · rename_i r st' heq
      split at heq
      · simp at heq
      · rename_i mat s7 hmid
        split at hmid
        · rename_i mref hgrey
          simp only [Option.some.injEq, Prod.mk.injEq] at hmid
          obtain ⟨hmat, hs7⟩ := hmid
          subst hs7
          subst hmat
          simp only [finishVisual, Option.some.injEq, Prod.mk.injEq] at heq
          obtain ⟨hr, hst⟩ := heq
          subst hr
          subst hst
          refine ⟨rfl, rfl, by omega, ?_, ⟨st.scene.fresh + 1, by omega, ?_,
            ?_, ?_⟩, ?_, ?_⟩
          · simp only [Scene.setGeomMaterial, Scene.updateGeom, Scene.createMaterialNamed,
              Scene.updateMat, Scene.addChild, Scene.updateNode]
            omega
          · simp only [Scene.setGeomMaterial, Scene.updateGeom, Scene.createMaterialNamed,
              Scene.updateMat, Scene.addChild, Scene.updateNode]
            omega
          · simp only [Scene.setGeomMaterial, Scene.updateGeom, Scene.createMaterialNamed,
              Scene.updateMat, Scene.addChild, Scene.updateNode, Scene.nodeOf, List.map_cons,
              eq_self_iff_true, if_true]
            rw [alook_cons_self]
            exact ⟨_, rfl, rfl⟩
          · refine ⟨?_, rfl, fun k => rfl⟩
            simp only [Scene.setGeomMaterial, Scene.updateGeom, Scene.createMaterialNamed,
              Scene.updateMat, Scene.addChild, Scene.updateNode, Scene.geomOf, List.map_cons,
              eq_self_iff_true, if_true]
            rw [alook_cons_self]
            rfl
          · intro k hk
            have hk0 : ¬k = st.scene.fresh := by omega
            have hk1 : ¬k = st.scene.fresh + 1 := by omega
            have hk2 : ¬k = st.scene.fresh + 1 + 1 := by omega
            have hk3 : ¬k = st.scene.fresh + 1 + 1 + 1 := by omega
            simp only [Scene.setGeomMaterial, Scene.updateGeom, Scene.createMaterialNamed,
              Scene.updateMat, Scene.addChild, Scene.updateNode, Scene.nodeOf]
            rw [alook_map_preserve, alook_map_preserve, alook_map_preserve,
              alook_cons_ne _ _ _ _ hk0] <;>
              first
              | (intro q hq
                 simp [hq, hk0, hk1, hk2, hk3])
              | (intro q
                 split <;> rfl)
          · intro k hk
            have hk1 : ¬k = st.scene.fresh + 1 := by omega
            simp only [Scene.setGeomMaterial, Scene.updateGeom, Scene.createMaterialNamed,
              Scene.updateMat, Scene.addChild, Scene.updateNode, Scene.geomOf]
            rw [alook_map_preserve, alook_cons_ne _ _ _ _ hk1] <;>
              first
              | (intro q hq
                 simp [hq, hk1])
              | (intro q
                 split <;> rfl)
        · rename_i hgrey
          simp only [Option.some.injEq, Prod.mk.injEq] at hmid
          obtain ⟨hmat, hs7⟩ := hmid
          subst hs7
          subst hmat
          simp only [finishVisual, Option.some.injEq, Prod.mk.injEq] at heq
          obtain ⟨hr, hst⟩ := heq
          subst hr
          subst hst
          refine ⟨rfl, rfl, by omega, ?_, ⟨st.scene.fresh + 1, by omega, ?_,
            ?_, ⟨st.scene.fresh + 1 + 1, by omega, ?_, ?_, rfl, ?_, ?_⟩⟩, ?_, ?_⟩
          · simp only [Scene.setGeomMaterial, Scene.updateGeom, Scene.createMaterialNamed,
              Scene.updateMat, Scene.addChild, Scene.updateNode]
            omega
          · simp only [Scene.setGeomMaterial, Scene.updateGeom, Scene.createMaterialNamed,
              Scene.updateMat, Scene.addChild, Scene.updateNode]
            omega
          · simp only [Scene.setGeomMaterial, Scene.updateGeom, Scene.createMaterialNamed,
              Scene.updateMat, Scene.addChild, Scene.updateNode, Scene.nodeOf, List.map_cons,
              eq_self_iff_true, if_true]
            rw [alook_cons_self]
            exact ⟨_, rfl, rfl⟩
          · simp only [Scene.setGeomMaterial, Scene.updateGeom, Scene.createMaterialNamed,
              Scene.updateMat, Scene.addChild, Scene.updateNode]
            omega
          · simp only [Scene.setGeomMaterial, Scene.updateGeom, Scene.createMaterialNamed,
              Scene.updateMat, Scene.addChild, Scene.updateNode, Scene.geomOf, List.map_cons,
              eq_self_iff_true, if_true]
            rw [alook_cons_self]
            rfl
          · simp only [Scene.setGeomMaterial, Scene.updateGeom, Scene.createMaterialNamed,
              Scene.updateMat, Scene.addChild, Scene.updateNode, Scene.matOf, List.map_cons,
              eq_self_iff_true, if_true]
            rw [alook_cons_self]
            rfl
          · intro k hkm
            simp only [Scene.setGeomMaterial, Scene.updateGeom, Scene.createMaterialNamed,
              Scene.updateMat, Scene.addChild, Scene.updateNode, Scene.matOf]
            rw [alook_map_preserve, alook_cons_ne _ _ _ _ hkm] <;>
              first
              | (intro q hq
                 simp [hq, hkm])
              | (intro q
                 split <;> rfl)
          · intro k hk
            have hk0 : ¬k = st.scene.fresh := by omega
            have hk1 : ¬k = st.scene.fresh + 1 := by omega
            have hk2 : ¬k = st.scene.fresh + 1 + 1 := by omega
            have hk3 : ¬k = st.scene.fresh + 1 + 1 + 1 := by omega
            simp only [Scene.setGeomMaterial, Scene.updateGeom, Scene.createMaterialNamed,
              Scene.updateMat, Scene.addChild, Scene.updateNode, Scene.nodeOf]
            rw [alook_map_preserve, alook_map_preserve, alook_map_preserve,
              alook_cons_ne _ _ _ _ hk0] <;>
              first
              | (intro q hq
                 simp [hq, hk0, hk1, hk2, hk3])
              | (intro q
                 split <;> rfl)
          · intro k hk
            have hk1 : ¬k = st.scene.fresh + 1 := by omega
            simp only [Scene.setGeomMaterial, Scene.updateGeom, Scene.createMaterialNamed,
              Scene.updateMat, Scene.addChild, Scene.updateNode, Scene.geomOf]
            rw [alook_map_preserve, alook_cons_ne _ _ _ _ hk1] <;>
              first
              | (intro q hq
                 simp [hq, hk1])
              | (intro q
                 split <;> rfl)
    all_goals
      rename_i heq
      split at heq <;>
        first
        | (simp_all [finishVisual]
           done)
        | (rename_i hmid
           split at hmid <;> simp_all [finishVisual])
  case none.cylinder =>
    simp only [createVisual, h1, hp, h3, hm, Option.isSome_none,
      Bool.false_eq_true, if_false, loadGeometry, Scene.createGeom,
      Scene.createNode, Scene.setLocalPose, Scene.updateNode,
      isZeroPose_poseZero, if_true, Scene.addGeometry, Scene.setLocalScale,
      visualMaterial, GeomDesc.isMesh, Scene.materialByName]
    split
    · rename_i r st' heq
      split at heq
      · simp at heq
      · rename_i mat s7 hmid
        split at hmid
        · rename_i mref hgrey
          simp only [Option.some.injEq, Prod.mk.injEq] at hmid
          obtain ⟨hmat, hs7⟩ := hmid
          subst hs7
          subst hmat
          simp only [finishVisual, Option.some.injEq, Prod.mk.injEq] at heq
          obtain ⟨hr, hst⟩ := heq
          subst hr
          subst hst
          refine ⟨rfl, rfl, by omega, ?_, ⟨st.scene.fresh + 1, by omega, ?_,
            ?_, ?_⟩, ?_, ?_⟩
          · simp only [Scene.setGeomMaterial, Scene.updateGeom, Scene.createMaterialNamed,
              Scene.updateMat, Scene.addChild, Scene.updateNode]
            omega
          · simp only [Scene.setGeomMaterial, Scene.updateGeom, Scene.createMaterialNamed,
              Scene.updateMat, Scene.addChild, Scene.updateNode]
            omega
          · simp only [Scene.setGeomMaterial, Scene.updateGeom, Scene.createMaterialNamed,
              Scene.updateMat, Scene.addChild, Scene.updateNode, Scene.nodeOf, List.map_cons,
              eq_self_iff_true, if_true]
            rw [alook_cons_self]
            exact ⟨_, rfl, rfl⟩
          · refine ⟨?_, rfl, fun k => rfl⟩
            simp only [Scene.setGeomMaterial, Scene.updateGeom, Scene.createMaterialNamed,
              Scene.updateMat, Scene.addChild, Scene.updateNode, Scene.geomOf, List.map_cons,
              eq_self_iff_true, if_true]
            rw [alook_cons_self]
            rfl
          · intro k hk
            have hk0 : ¬k = st.scene.fresh := by omega
            have hk1 : ¬k = st.scene.fresh + 1 := by omega
            have hk2 : ¬k = st.scene.fresh + 1 + 1 := by omega
            have hk3 : ¬k = st.scene.fresh + 1 + 1 + 1 := by omega
            simp only [Scene.setGeomMaterial, Scene.updateGeom, Scene.createMaterialNamed,
              Scene.updateMat, Scene.addChild, Scene.updateNode, Scene.nodeOf]
            rw [alook_map_preserve, alook_map_preserve, alook_map_preserve,
              alook_cons_ne _ _ _ _ hk0] <;>
              first
              | (intro q hq
                 simp [hq, hk0, hk1, hk2, hk3])
              | (intro q
                 split <;> rfl)
          · intro k hk
            have hk1 : ¬k = st.scene.fresh + 1 := by omega
            simp only [Scene.setGeomMaterial, Scene.updateGeom, Scene.createMaterialNamed,
              Scene.updateMat, Scene.addChild, Scene.updateNode, Scene.geomOf]
            rw [alook_map_preserve, alook_cons_ne _ _ _ _ hk1] <;>
              first
              | (intro q hq
                 simp [hq, hk1])
              | (intro q
                 split <;> rfl)
        · rename_i hgrey
          simp only [Option.some.injEq, Prod.mk.injEq] at hmid
          obtain ⟨hmat, hs7⟩ := hmid
          subst hs7
          subst hmat
          simp only [finishVisual, Option.some.injEq, Prod.mk.injEq] at heq
          obtain ⟨hr, hst⟩ := heq
          subst hr
          subst hst
          refine ⟨rfl, rfl, by omega, ?_, ⟨st.scene.fresh + 1, by omega, ?_,
            ?_, ⟨st.scene.fresh + 1 + 1, by omega, ?_, ?_, rfl, ?_, ?_⟩⟩, ?_, ?_⟩
          · simp only [Scene.setGeomMaterial, Scene.updateGeom, Scene.createMaterialNamed,
              Scene.updateMat, Scene.addChild, Scene.updateNode]
            omega
          · simp only [Scene.setGeomMaterial, Scene.updateGeom, Scene.createMaterialNamed,
              Scene.updateMat, Scene.addChild, Scene.updateNode]
            omega
          · simp only [Scene.setGeomMaterial, Scene.updateGeom, Scene.createMaterialNamed,
              Scene.updateMat, Scene.addChild, Scene.updateNode, Scene.nodeOf, List.map_cons,
              eq_self_iff_true, if_true]
            rw [alook_cons_self]
            exact ⟨_, rfl, rfl⟩
          · simp only [Scene.setGeomMaterial, Scene.updateGeom, Scene.createMaterialNamed,
              Scene.updateMat, Scene.addChild, Scene.updateNode]
            omega
          · simp only [Scene.setGeomMaterial, Scene.updateGeom, Scene.createMaterialNamed,
              Scene.updateMat, Scene.addChild, Scene.updateNode, Scene.geomOf, List.map_cons,
              eq_self_iff_true, if_true]
            rw [alook_cons_self]
            rfl
          · simp only [Scene.setGeomMaterial, Scene.updateGeom, Scene.createMaterialNamed,
              Scene.updateMat, Scene.addChild, Scene.updateNode, Scene.matOf, List.map_cons,
              eq_self_iff_true, if_true]
            rw [alook_cons_self]
            rfl
          · intro k hkm
            simp only [Scene.setGeomMaterial, Scene.updateGeom, Scene.createMaterialNamed,
              Scene.updateMat, Scene.addChild, Scene.updateNode, Scene.matOf]
            rw [alook_map_preserve, alook_cons_ne _ _ _ _ hkm] <;>
              first
              | (intro q hq
                 simp [hq, hkm])
              | (intro q
                 split <;> rfl)
          · intro k hk
            have hk0 : ¬k = st.scene.fresh := by omega
            have hk1 : ¬k = st.scene.fresh + 1 := by omega
            have hk2 : ¬k = st.scene.fresh + 1 + 1 := by omega
            have hk3 : ¬k = st.scene.fresh + 1 + 1 + 1 := by omega
            simp only [Scene.setGeomMaterial, Scene.updateGeom, Scene.createMaterialNamed,
              Scene.updateMat, Scene.addChild, Scene.updateNode, Scene.nodeOf]
            rw [alook_map_preserve, alook_map_preserve, alook_map_preserve,
              alook_cons_ne _ _ _ _ hk0] <;>
              first
              | (intro q hq
                 simp [hq, hk0, hk1, hk2, hk3])
              | (intro q
                 split <;> rfl)
          · intro k hk
            have hk1 : ¬k = st.scene.fresh + 1 := by omega
            simp only [Scene.setGeomMaterial, Scene.updateGeom, Scene.createMaterialNamed,
              Scene.updateMat, Scene.addChild, Scene.updateNode, Scene.geomOf]
            rw [alook_map_preserve, alook_cons_ne _ _ _ _ hk1] <;>
              first
              | (intro q hq
                 simp [hq, hk1])
              | (intro q
                 split <;> rfl)
    all_goals
      rename_i heq
      split at heq <;>
        first
        | (simp_all [finishVisual]
           done)
        | (rename_i hmid
           split at hmid <;> simp_all [finishVisual])
  case none.sphere =>
    simp only [createVisual, h1, hp, h3, hm, Option.isSome_none,
      Bool.false_eq_true, if_false, loadGeometry, Scene.createGeom,
      Scene.createNode, Scene.setLocalPose, Scene.updateNode,
      isZeroPose_poseZero, if_true, Scene.addGeometry, Scene.setLocalScale,
      visualMaterial, GeomDesc.isMesh, Scene.materialByName]
    split
    · rename_i r st' heq
      split at heq
      · simp at heq
      · rename_i mat s7 hmid
        split at hmid
        · rename_i mref hgrey
          simp only [Option.some.injEq, Prod.mk.injEq] at hmid
          obtain ⟨hmat, hs7⟩ := hmid
          subst hs7
          subst hmat
          simp only [finishVisual, Option.some.injEq, Prod.mk.injEq] at heq
          obtain ⟨hr, hst⟩ := heq
          subst hr
          subst hst
          refine ⟨rfl, rfl, by omega, ?_, ⟨st.scene.fresh + 1, by omega, ?_,
            ?_, ?_⟩, ?_, ?_⟩
          · simp only [Scene.setGeomMaterial, Scene.updateGeom, Scene.createMaterialNamed,
              Scene.updateMat, Scene.addChild, Scene.updateNode]
            omega
          · simp only [Scene.setGeomMaterial, Scene.updateGeom, Scene.createMaterialNamed,
              Scene.updateMat, Scene.addChild, Scene.updateNode]
            omega
          · simp only [Scene.setGeomMaterial, Scene.updateGeom, Scene.createMaterialNamed,
              Scene.updateMat, Scene.addChild, Scene.updateNode, Scene.nodeOf, List.map_cons,
              eq_self_iff_true, if_true]
            rw [alook_cons_self]
            exact ⟨_, rfl, rfl⟩
          · refine ⟨?_, rfl, fun k => rfl⟩
            simp only [Scene.setGeomMaterial, Scene.updateGeom, Scene.createMaterialNamed,
              Scene.updateMat, Scene.addChild, Scene.updateNode, Scene.geomOf, List.map_cons,
              eq_self_iff_true, if_true]
            rw [alook_cons_self]
            rfl
          · intro k hk
            have hk0 : ¬k = st.scene.fresh := by omega
            have hk1 : ¬k = st.scene.fresh + 1 := by omega
            have hk2 : ¬k = st.scene.fresh + 1 + 1 := by omega
            have hk3 : ¬k = st.scene.fresh + 1 + 1 + 1 := by omega
            simp only [Scene.setGeomMaterial, Scene.updateGeom, Scene.createMaterialNamed,
              Scene.updateMat, Scene.addChild, Scene.updateNode, Scene.nodeOf]
            rw [alook_map_preserve, alook_map_preserve, alook_map_preserve,
              alook_cons_ne _ _ _ _ hk0] <;>
              first
              | (intro q hq
                 simp [hq, hk0, hk1, hk2, hk3])
              | (intro q
                 split <;> rfl)
          · intro k hk
            have hk1 : ¬k = st.scene.fresh + 1 := by omega
            simp only [Scene.setGeomMaterial, Scene.updateGeom, Scene.createMaterialNamed,
              Scene.updateMat, Scene.addChild, Scene.updateNode, Scene.geomOf]
            rw [alook_map_preserve, alook_cons_ne _ _ _ _ hk1] <;>
              first
              | (intro q hq
                 simp [hq, hk1])
              | (intro q
                 split <;> rfl)
        · rename_i hgrey
          simp only [Option.some.injEq, Prod.mk.injEq] at hmid
          obtain ⟨hmat, hs7⟩ := hmid
          subst hs7
          subst hmat
          simp only [finishVisual, Option.some.injEq, Prod.mk.injEq] at heq
          obtain ⟨hr, hst⟩ := heq
          subst hr
          subst hst
          refine ⟨rfl, rfl, by omega, ?_, ⟨st.scene.fresh + 1, by omega, ?_,
            ?_, ⟨st.scene.fresh + 1 + 1, by omega, ?_, ?_, rfl, ?_, ?_⟩⟩, ?_, ?_⟩
          · simp only [Scene.setGeomMaterial, Scene.updateGeom, Scene.createMaterialNamed,
              Scene.updateMat, Scene.addChild, Scene.updateNode]
            omega
          · simp only [Scene.setGeomMaterial, Scene.updateGeom, Scene.createMaterialNamed,
              Scene.updateMat, Scene.addChild, Scene.updateNode]
            omega
          · simp only [Scene.setGeomMaterial, Scene.updateGeom, Scene.createMaterialNamed,
              Scene.updateMat, Scene.addChild, Scene.updateNode, Scene.nodeOf, List.map_cons,
              eq_self_iff_true, if_true]
            rw [alook_cons_self]
            exact ⟨_, rfl, rfl⟩
          · simp only [Scene.setGeomMaterial, Scene.updateGeom, Scene.createMaterialNamed,
              Scene.updateMat, Scene.addChild, Scene.updateNode]
            omega
          · simp only [Scene.setGeomMaterial, Scene.updateGeom, Scene.createMaterialNamed,
              Scene.updateMat, Scene.addChild, Scene.updateNode, Scene.geomOf, List.map_cons,
              eq_self_iff_true, if_true]
            rw [alook_cons_self]
            rfl
          · simp only [Scene.setGeomMaterial, Scene.updateGeom, Scene.createMaterialNamed,
              Scene.updateMat, Scene.addChild, Scene.updateNode, Scene.matOf, List.map_cons,
              eq_self_iff_true, if_true]
            rw [alook_cons_self]
            rfl
          · intro k hkm
            simp only [Scene.setGeomMaterial, Scene.updateGeom, Scene.createMaterialNamed,
              Scene.updateMat, Scene.addChild, Scene.updateNode, Scene.matOf]
            rw [alook_map_preserve, alook_cons_ne _ _ _ _ hkm] <;>
              first
              | (intro q hq
                 simp [hq, hkm])
              | (intro q
                 split <;> rfl)
          · intro k hk
            have hk0 : ¬k = st.scene.fresh := by omega
            have hk1 : ¬k = st.scene.fresh + 1 := by omega
            have hk2 : ¬k = st.scene.fresh + 1 + 1 := by omega
            have hk3 : ¬k = st.scene.fresh + 1 + 1 + 1 := by omega
            simp only [Scene.setGeomMaterial, Scene.updateGeom, Scene.createMaterialNamed,
              Scene.updateMat, Scene.addChild, Scene.updateNode, Scene.nodeOf]
            rw [alook_map_preserve, alook_map_preserve, alook_map_preserve,
              alook_cons_ne _ _ _ _ hk0] <;>
              first
              | (intro q hq
                 simp [hq, hk0, hk1, hk2, hk3])
              | (intro q
                 split <;> rfl)
          · intro k hk
            have hk1 : ¬k = st.scene.fresh + 1 := by omega
            simp only [Scene.setGeomMaterial, Scene.updateGeom, Scene.createMaterialNamed,
              Scene.updateMat, Scene.addChild, Scene.updateNode, Scene.geomOf]
            rw [alook_map_preserve, alook_cons_ne _ _ _ _ hk1] <;>
              first
              | (intro q hq
                 simp [hq, hk1])
              | (intro q
                 split <;> rfl)
    all_goals
      rename_i heq
      split at heq <;>
        first
        | (simp_all [finishVisual]
           done)
        | (rename_i hmid
           split at hmid <;> simp_all [finishVisual])
  case none.plane =>
    by_cases hz : isZeroPose ⟨v3zero, from2AxesZ (v3normalized n)⟩ = true
    · simp only [createVisual, h1, hp, h3, hm, Option.isSome_none,
        Bool.false_eq_true, if_false, loadGeometry, Scene.createGeom,
        Scene.createNode, Scene.setLocalPose, Scene.updateNode,
        hz, if_true, Scene.addGeometry, Scene.setLocalScale,
        visualMaterial, GeomDesc.isMesh, Scene.materialByName]
      split
      · rename_i r st' heq
        split at heq
        · simp at heq
        · rename_i mat s7 hmid
          split at hmid
          · rename_i mref hgrey
            simp only [Option.some.injEq, Prod.mk.injEq] at hmid
            obtain ⟨hmat, hs7⟩ := hmid
            subst hs7
            subst hmat
            simp only [finishVisual, Option.some.injEq, Prod.mk.injEq] at heq
            obtain ⟨hr, hst⟩ := heq
            subst hr
            subst hst
            refine ⟨rfl, rfl, by omega, ?_, ⟨st.scene.fresh + 1, by omega, ?_,
              ?_, ?_⟩, ?_, ?_⟩
            · simp only [Scene.setGeomMaterial, Scene.updateGeom, Scene.createMaterialNamed,
                Scene.updateMat, Scene.addChild, Scene.updateNode]
              omega
            · simp only [Scene.setGeomMaterial, Scene.updateGeom, Scene.createMaterialNamed,
                Scene.updateMat, Scene.addChild, Scene.updateNode]
              omega
            · simp only [Scene.setGeomMaterial, Scene.updateGeom, Scene.createMaterialNamed,
                Scene.updateMat, Scene.addChild, Scene.updateNode, Scene.nodeOf, List.map_cons,
                eq_self_iff_true, if_true]
              rw [alook_cons_self]
              exact ⟨_, rfl, rfl⟩
            · refine ⟨?_, rfl, fun k => rfl⟩
              simp only [Scene.setGeomMaterial, Scene.updateGeom, Scene.createMaterialNamed,
                Scene.updateMat, Scene.addChild, Scene.updateNode, Scene.geomOf, List.map_cons,
                eq_self_iff_true, if_true]
              rw [alook_cons_self]
              rfl
            · intro k hk
              have hk0 : ¬k = st.scene.fresh := by omega
              have hk1 : ¬k = st.scene.fresh + 1 := by omega
              have hk2 : ¬k = st.scene.fresh + 1 + 1 := by omega
              have hk3 : ¬k = st.scene.fresh + 1 + 1 + 1 := by omega
              simp only [Scene.setGeomMaterial, Scene.updateGeom, Scene.createMaterialNamed,
                Scene.updateMat, Scene.addChild, Scene.updateNode, Scene.nodeOf]
              rw [alook_map_preserve, alook_map_preserve, alook_map_preserve,
                alook_cons_ne _ _ _ _ hk0] <;>
                first
                | (intro q hq
                   simp [hq, hk0, hk1, hk2, hk3])
                | (intro q
                   split <;> rfl)
            · intro k hk
              have hk1 : ¬k = st.scene.fresh + 1 := by omega
              simp only [Scene.setGeomMaterial, Scene.updateGeom, Scene.createMaterialNamed,
                Scene.updateMat, Scene.addChild, Scene.updateNode, Scene.geomOf]
              rw [alook_map_preserve, alook_cons_ne _ _ _ _ hk1] <;>
                first
                | (intro q hq
                   simp [hq, hk1])
                | (intro q
                   split <;> rfl)
          · rename_i hgrey
            simp only [Option.some.injEq, Prod.mk.injEq] at hmid
            obtain ⟨hmat, hs7⟩ := hmid
            subst hs7
            subst hmat
            simp only [finishVisual, Option.some.injEq, Prod.mk.injEq] at heq
            obtain ⟨hr, hst⟩ := heq
            subst hr
            subst hst
            refine ⟨rfl, rfl, by omega, ?_, ⟨st.scene.fresh + 1, by omega, ?_,
              ?_, ⟨st.scene.fresh + 1 + 1, by omega, ?_, ?_, rfl, ?_, ?_⟩⟩, ?_, ?_⟩
            · simp only [Scene.setGeomMaterial, Scene.updateGeom, Scene.createMaterialNamed,
                Scene.updateMat, Scene.addChild, Scene.updateNode]
              omega
            · simp only [Scene.setGeomMaterial, Scene.updateGeom, Scene.createMaterialNamed,
                Scene.updateMat, Scene.addChild, Scene.updateNode]
              omega
            · simp only [Scene.setGeomMaterial, Scene.updateGeom, Scene.createMaterialNamed,
                Scene.updateMat, Scene.addChild, Scene.updateNode, Scene.nodeOf, List.map_cons,
                eq_self_iff_true, if_true]
              rw [alook_cons_self]
              exact ⟨_, rfl, rfl⟩
            · simp only [Scene.setGeomMaterial, Scene.updateGeom, Scene.createMaterialNamed,
                Scene.updateMat, Scene.addChild, Scene.updateNode]
              omega
            · simp only [Scene.setGeomMaterial, Scene.updateGeom, Scene.createMaterialNamed,
                Scene.updateMat, Scene.addChild, Scene.updateNode, Scene.geomOf, List.map_cons,
                eq_self_iff_true, if_true]
              rw [alook_cons_self]
              rfl
            · simp only [Scene.setGeomMaterial, Scene.updateGeom, Scene.createMaterialNamed,
                Scene.updateMat, Scene.addChild, Scene.updateNode, Scene.matOf, List.map_cons,
                eq_self_iff_true, if_true]
              rw [alook_cons_self]
              rfl
            · intro k hkm
              simp only [Scene.setGeomMaterial, Scene.updateGeom, Scene.createMaterialNamed,
                Scene.updateMat, Scene.addChild, Scene.updateNode, Scene.matOf]
              rw [alook_map_preserve, alook_cons_ne _ _ _ _ hkm] <;>
                first
                | (intro q hq
                   simp [hq, hkm])
                | (intro q
                   split <;> rfl)
            · intro k hk
              have hk0 : ¬k = st.scene.fresh := by omega
              have hk1 : ¬k = st.scene.fresh + 1 := by omega
              have hk2 : ¬k = st.scene.fresh + 1 + 1 := by omega
              have hk3 : ¬k = st.scene.fresh + 1 + 1 + 1 := by omega
              simp only [Scene.setGeomMaterial, Scene.updateGeom, Scene.createMaterialNamed,
                Scene.updateMat, Scene.addChild, Scene.updateNode, Scene.nodeOf]
              rw [alook_map_preserve, alook_map_preserve, alook_map_preserve,
                alook_cons_ne _ _ _ _ hk0] <;>
                first
                | (intro q hq
                   simp [hq, hk0, hk1, hk2, hk3])
                | (intro q
                   split <;> rfl)
            · intro k hk
              have hk1 : ¬k = st.scene.fresh + 1 := by omega
              simp only [Scene.setGeomMaterial, Scene.updateGeom, Scene.createMaterialNamed,
                Scene.updateMat, Scene.addChild, Scene.updateNode, Scene.geomOf]
              rw [alook_map_preserve, alook_cons_ne _ _ _ _ hk1] <;>
                first
                | (intro q hq
                   simp [hq, hk1])
                | (intro q
                   split <;> rfl)
      all_goals
        rename_i heq
        split at heq
        all_goals
          first
          | (exact heq _ _ rfl)
          | (rename_i hmid
             split at hmid <;> exact Option.noConfusion hmid)
    · have hzf : isZeroPose ⟨v3zero, from2AxesZ (v3normalized n)⟩ = false := by
        simpa using hz
      simp only [createVisual, h1, hp, h3, hm, Option.isSome_none,
        Bool.false_eq_true, if_false, loadGeometry, Scene.createGeom,
        Scene.createNode, Scene.setLocalPose, Scene.updateNode,
        hzf, Scene.addGeometry, Scene.setLocalScale,
        visualMaterial, GeomDesc.isMesh, Scene.materialByName]
      split
      · rename_i r st' heq
        split at heq
        · simp at heq
        · rename_i mat s7 hmid
          split at hmid
          · rename_i mref hgrey
            simp only [Option.some.injEq, Prod.mk.injEq] at hmid
            obtain ⟨hmat, hs7⟩ := hmid
            subst hs7
            subst hmat
            simp only [finishVisual, Option.some.injEq, Prod.mk.injEq] at heq
            obtain ⟨hr, hst⟩ := heq
            subst hr
            subst hst
            refine ⟨rfl, rfl, by omega, ?_, ⟨st.scene.fresh + 1, by omega, ?_,
              ?_, ?_⟩, ?_, ?_⟩
            · simp only [Scene.setGeomMaterial, Scene.updateGeom, Scene.createMaterialNamed,
                Scene.updateMat, Scene.addChild, Scene.updateNode]
              omega
            · simp only [Scene.setGeomMaterial, Scene.updateGeom, Scene.createMaterialNamed,
                Scene.updateMat, Scene.addChild, Scene.updateNode]
              omega
            · simp only [Scene.setGeomMaterial, Scene.updateGeom, Scene.createMaterialNamed,
                Scene.updateMat, Scene.addChild, Scene.updateNode, Scene.nodeOf, List.map_cons,
                eq_self_iff_true, if_true]
              rw [alook_cons_self]
              exact ⟨_, rfl, rfl⟩
            · refine ⟨?_, rfl, fun k => rfl⟩
              simp only [Scene.setGeomMaterial, Scene.updateGeom, Scene.createMaterialNamed,
                Scene.updateMat, Scene.addChild, Scene.updateNode, Scene.geomOf, List.map_cons,
                eq_self_iff_true, if_true]
              rw [alook_cons_self]
              rfl
            · intro k hk
              have hk0 : ¬k = st.scene.fresh := by omega
              have hk1 : ¬k = st.scene.fresh + 1 := by omega
              have hk2 : ¬k = st.scene.fresh + 1 + 1 := by omega
              have hk3 : ¬k = st.scene.fresh + 1 + 1 + 1 := by omega
              simp only [Scene.setGeomMaterial, Scene.updateGeom, Scene.createMaterialNamed,
                Scene.updateMat, Scene.addChild, Scene.updateNode, Scene.nodeOf]
              rw [alook_map_preserve, alook_map_preserve, alook_map_preserve,
                alook_cons_ne _ _ _ _ hk2, alook_map_preserve,
                alook_cons_ne _ _ _ _ hk0] <;>
                first
                | (intro q hq
                   simp [hq, hk0, hk1, hk2, hk3])
                | (intro q
                   split <;> rfl)
            · intro k hk
              have hk1 : ¬k = st.scene.fresh + 1 := by omega
              simp only [Scene.setGeomMaterial, Scene.updateGeom, Scene.createMaterialNamed,
                Scene.updateMat, Scene.addChild, Scene.updateNode, Scene.geomOf]
              rw [alook_map_preserve, alook_cons_ne _ _ _ _ hk1] <;>
                first
                | (intro q hq
                   simp [hq, hk1])
                | (intro q
                   split <;> rfl)
          · rename_i hgrey
            simp only [Option.some.injEq, Prod.mk.injEq] at hmid
            obtain ⟨hmat, hs7⟩ := hmid
            subst hs7
            subst hmat
            simp only [finishVisual, Option.some.injEq, Prod.mk.injEq] at heq
            obtain ⟨hr, hst⟩ := heq
            subst hr
            subst hst
            refine ⟨rfl, rfl, by omega, ?_, ⟨st.scene.fresh + 1, by omega, ?_,
              ?_, ⟨st.scene.fresh + 1 + 1 + 1, by omega, ?_, ?_, rfl, ?_, ?_⟩⟩, ?_, ?_⟩
            · simp only [Scene.setGeomMaterial, Scene.updateGeom, Scene.createMaterialNamed,
                Scene.updateMat, Scene.addChild, Scene.updateNode]
              omega
            · simp only [Scene.setGeomMaterial, Scene.updateGeom, Scene.createMaterialNamed,
                Scene.updateMat, Scene.addChild, Scene.updateNode]
              omega
            · simp only [Scene.setGeomMaterial, Scene.updateGeom, Scene.createMaterialNamed,
                Scene.updateMat, Scene.addChild, Scene.updateNode, Scene.nodeOf, List.map_cons,
                eq_self_iff_true, if_true]
              rw [alook_cons_self]
              exact ⟨_, rfl, rfl⟩
            · simp only [Scene.setGeomMaterial, Scene.updateGeom, Scene.createMaterialNamed,
                Scene.updateMat, Scene.addChild, Scene.updateNode]
              omega
            · simp only [Scene.setGeomMaterial, Scene.updateGeom, Scene.createMaterialNamed,
                Scene.updateMat, Scene.addChild, Scene.updateNode, Scene.geomOf, List.map_cons,
                eq_self_iff_true, if_true]
              rw [alook_cons_self]
              rfl
            · simp only [Scene.setGeomMaterial, Scene.updateGeom, Scene.createMaterialNamed,
                Scene.updateMat, Scene.addChild, Scene.updateNode, Scene.matOf, List.map_cons,
                eq_self_iff_true, if_true]
              rw [alook_cons_self]
              rfl
            · intro k hkm
              simp only [Scene.setGeomMaterial, Scene.updateGeom, Scene.createMaterialNamed,
                Scene.updateMat, Scene.addChild, Scene.updateNode, Scene.matOf]
              rw [alook_map_preserve, alook_cons_ne _ _ _ _ hkm] <;>
                first
                | (intro q hq
                   simp [hq, hkm])
                | (intro q
                   split <;> rfl)
            · intro k hk
              have hk0 : ¬k = st.scene.fresh := by omega
              have hk1 : ¬k = st.scene.fresh + 1 := by omega
              have hk2 : ¬k = st.scene.fresh + 1 + 1 := by omega
              have hk3 : ¬k = st.scene.fresh + 1 + 1 + 1 := by omega
              simp only [Scene.setGeomMaterial, Scene.updateGeom, Scene.createMaterialNamed,
                Scene.updateMat, Scene.addChild, Scene.updateNode, Scene.nodeOf]
              rw [alook_map_preserve, alook_map_preserve, alook_map_preserve,
                alook_cons_ne _ _ _ _ hk2, alook_map_preserve,
                alook_cons_ne _ _ _ _ hk0] <;>
                first
                | (intro q hq
                   simp [hq, hk0, hk1, hk2, hk3])
                | (intro q
                   split <;> rfl)
            · intro k hk
              have hk1 : ¬k = st.scene.fresh + 1 := by omega
              simp only [Scene.setGeomMaterial, Scene.updateGeom, Scene.createMaterialNamed,
                Scene.updateMat, Scene.addChild, Scene.updateNode, Scene.geomOf]
              rw [alook_map_preserve, alook_cons_ne _ _ _ _ hk1] <;>
                first
                | (intro q hq
                   simp [hq, hk1])
                | (intro q
                   split <;> rfl)
      all_goals
        rename_i heq
        split at heq
        all_goals
          first
          | (exact heq _ _ rfl)
          | (rename_i hmid
             split at hmid <;> exact Option.noConfusion hmid)
  case some.box =>
    simp only [createVisual, h1, hp, h3, hm, Option.isSome_none,
      Bool.false_eq_true, if_false, loadGeometry, Scene.createGeom,
      Scene.createNode, Scene.setLocalPose, Scene.updateNode,
      isZeroPose_poseZero, if_true, Scene.addGeometry, Scene.setLocalScale,
      visualMaterial, GeomDesc.isMesh, Scene.materialByName]
    split
    · rename_i r st' heq
      split at heq
      · simp at heq
      · rename_i mat s7 hmid
        split at hmid
        · rename_i mref hgrey
          simp only [Option.some.injEq, Prod.mk.injEq] at hmid
          obtain ⟨hmat, hs7⟩ := hmid
          subst hs7
          subst hmat
          simp only [finishVisual, Option.some.injEq, Prod.mk.injEq] at heq
          obtain ⟨hr, hst⟩ := heq
          subst hr
          subst hst
          refine ⟨rfl, rfl, by omega, ?_, ⟨st.scene.fresh + 1, by omega, ?_,
            ?_, ?_⟩, ?_, ?_⟩
          · simp only [Scene.setGeomMaterial, Scene.updateGeom, Scene.createMaterialNamed,
              Scene.updateMat, Scene.addChild, Scene.updateNode]
            omega
          · simp only [Scene.setGeomMaterial, Scene.updateGeom, Scene.createMaterialNamed,
              Scene.updateMat, Scene.addChild, Scene.updateNode]
            omega
          · simp only [Scene.setGeomMaterial, Scene.updateGeom, Scene.createMaterialNamed,
              Scene.updateMat, Scene.addChild, Scene.updateNode, Scene.nodeOf, List.map_cons,
              eq_self_iff_true, if_true]
            rw [alook_cons_self]
            exact ⟨_, rfl, rfl⟩
          · refine ⟨?_, rfl, fun k => rfl⟩
            simp only [Scene.setGeomMaterial, Scene.updateGeom, Scene.createMaterialNamed,
              Scene.updateMat, Scene.addChild, Scene.updateNode, Scene.geomOf, List.map_cons,
              eq_self_iff_true, if_true]
            rw [alook_cons_self]
            rfl
          · intro k hk
            have hk0 : ¬k = st.scene.fresh := by omega
            have hk1 : ¬k = st.scene.fresh + 1 := by omega
            have hk2 : ¬k = st.scene.fresh + 1 + 1 := by omega
            have hk3 : ¬k = st.scene.fresh + 1 + 1 + 1 := by omega
            simp only [Scene.setGeomMaterial, Scene.updateGeom, Scene.createMaterialNamed,
              Scene.updateMat, Scene.addChild, Scene.updateNode, Scene.nodeOf]
            rw [alook_map_preserve, alook_map_preserve, alook_map_preserve,
              alook_map_preserve,
              alook_cons_ne _ _ _ _ hk0] <;>
              first
              | (intro q hq
                 simp [hq, hk0, hk1, hk2, hk3])
              | (intro q
                 split <;> rfl)
          · intro k hk
            have hk1 : ¬k = st.scene.fresh + 1 := by omega
            simp only [Scene.setGeomMaterial, Scene.updateGeom, Scene.createMaterialNamed,
              Scene.updateMat, Scene.addChild, Scene.updateNode, Scene.geomOf]
            rw [alook_map_preserve, alook_cons_ne _ _ _ _ hk1] <;>
              first
              | (intro q hq
                 simp [hq, hk1])
              | (intro q
                 split <;> rfl)
        · rename_i hgrey
          simp only [Option.some.injEq, Prod.mk.injEq] at hmid
          obtain ⟨hmat, hs7⟩ := hmid
          subst hs7
          subst hmat
          simp only [finishVisual, Option.some.injEq, Prod.mk.injEq] at heq
          obtain ⟨hr, hst⟩ := heq
          subst hr
          subst hst
          refine ⟨rfl, rfl, by omega, ?_, ⟨st.scene.fresh + 1, by omega, ?_,
            ?_, ⟨st.scene.fresh + 1 + 1, by omega, ?_, ?_, rfl, ?_, ?_⟩⟩, ?_, ?_⟩
          · simp only [Scene.setGeomMaterial, Scene.updateGeom, Scene.createMaterialNamed,
              Scene.updateMat, Scene.addChild, Scene.updateNode]
            omega
          · simp only [Scene.setGeomMaterial, Scene.updateGeom, Scene.createMaterialNamed,
              Scene.updateMat, Scene.addChild, Scene.updateNode]
            omega
          · simp only [Scene.setGeomMaterial, Scene.updateGeom, Scene.createMaterialNamed,
              Scene.updateMat, Scene.addChild, Scene.updateNode, Scene.nodeOf, List.map_cons,
              eq_self_iff_true, if_true]
            rw [alook_cons_self]
            exact ⟨_, rfl, rfl⟩
          · simp only [Scene.setGeomMaterial, Scene.updateGeom, Scene.createMaterialNamed,
              Scene.updateMat, Scene.addChild, Scene.updateNode]
            omega
          · simp only [Scene.setGeomMaterial, Scene.updateGeom, Scene.createMaterialNamed,
              Scene.updateMat, Scene.addChild, Scene.updateNode, Scene.geomOf, List.map_cons,
              eq_self_iff_true, if_true]
            rw [alook_cons_self]
            rfl
          · simp only [Scene.setGeomMaterial, Scene.updateGeom, Scene.createMaterialNamed,
              Scene.updateMat, Scene.addChild, Scene.updateNode, Scene.matOf, List.map_cons,
              eq_self_iff_true, if_true]
            rw [alook_cons_self]
            rfl
          · intro k hkm
            simp only [Scene.setGeomMaterial, Scene.updateGeom, Scene.createMaterialNamed,
              Scene.updateMat, Scene.addChild, Scene.updateNode, Scene.matOf]
            rw [alook_map_preserve, alook_cons_ne _ _ _ _ hkm] <;>
              first
              | (intro q hq
                 simp [hq, hkm])
              | (intro q
                 split <;> rfl)
          · intro k hk
            have hk0 : ¬k = st.scene.fresh := by omega
            have hk1 : ¬k = st.scene.fresh + 1 := by omega
            have hk2 : ¬k = st.scene.fresh + 1 + 1 := by omega
            have hk3 : ¬k = st.scene.fresh + 1 + 1 + 1 := by omega
            simp only [Scene.setGeomMaterial, Scene.updateGeom, Scene.createMaterialNamed,
              Scene.updateMat, Scene.addChild, Scene.updateNode, Scene.nodeOf]
            rw [alook_map_preserve, alook_map_preserve, alook_map_preserve,
              alook_map_preserve,
              alook_cons_ne _ _ _ _ hk0] <;>
              first
              | (intro q hq
                 simp [hq, hk0, hk1, hk2, hk3])
              | (intro q
                 split <;> rfl)
          · intro k hk
            have hk1 : ¬k = st.scene.fresh + 1 := by omega
            simp only [Scene.setGeomMaterial, Scene.updateGeom, Scene.createMaterialNamed,
              Scene.updateMat, Scene.addChild, Scene.updateNode, Scene.geomOf]
            rw [alook_map_preserve, alook_cons_ne _ _ _ _ hk1] <;>
              first
              | (intro q hq
                 simp [hq, hk1])
              | (intro q
                 split <;> rfl)
    all_goals
      rename_i heq
      split at heq <;>
        first
        | (simp_all [finishVisual]
           done)
        | (rename_i hmid
           split at hmid <;> simp_all [finishVisual])
  case some.cylinder =>
    simp only [createVisual, h1, hp, h3, hm, Option.isSome_none,
      Bool.false_eq_true, if_false, loadGeometry, Scene.createGeom,
      Scene.createNode, Scene.setLocalPose, Scene.updateNode,
      isZeroPose_poseZero, if_true, Scene.addGeometry, Scene.setLocalScale,
      visualMaterial, GeomDesc.isMesh, Scene.materialByName]
    split
    · rename_i r st' heq
      split at heq
      · simp at heq
      · rename_i mat s7 hmid
        split at hmid
        · rename_i mref hgrey
          simp only [Option.some.injEq, Prod.mk.injEq] at hmid
          obtain ⟨hmat, hs7⟩ := hmid
          subst hs7
          subst hmat
          simp only [finishVisual, Option.some.injEq, Prod.mk.injEq] at heq
          obtain ⟨hr, hst⟩ := heq
          subst hr
          subst hst
          refine ⟨rfl, rfl, by omega, ?_, ⟨st.scene.fresh + 1, by omega, ?_,
            ?_, ?_⟩, ?_, ?_⟩
          · simp only [Scene.setGeomMaterial, Scene.updateGeom, Scene.createMaterialNamed,
              Scene.updateMat, Scene.addChild, Scene.updateNode]
            omega
          · simp only [Scene.setGeomMaterial, Scene.updateGeom, Scene.createMaterialNamed,
              Scene.updateMat, Scene.addChild, Scene.updateNode]
            omega
          · simp only [Scene.setGeomMaterial, Scene.updateGeom, Scene.createMaterialNamed,
              Scene.updateMat, Scene.addChild, Scene.updateNode, Scene.nodeOf, List.map_cons,
              eq_self_iff_true, if_true]
            rw [alook_cons_self]
            exact ⟨_, rfl, rfl⟩
          · refine ⟨?_, rfl, fun k => rfl⟩
            simp only [Scene.setGeomMaterial, Scene.updateGeom, Scene.createMaterialNamed,
              Scene.updateMat, Scene.addChild, Scene.updateNode, Scene.geomOf, List.map_cons,
              eq_self_iff_true, if_true]
            rw [alook_cons_self]
            rfl
          · intro k hk
            have hk0 : ¬k = st.scene.fresh := by omega
            have hk1 : ¬k = st.scene.fresh + 1 := by omega
            have hk2 : ¬k = st.scene.fresh + 1 + 1 := by omega
            have hk3 : ¬k = st.scene.fresh + 1 + 1 + 1 := by omega
            simp only [Scene.setGeomMaterial, Scene.updateGeom, Scene.createMaterialNamed,
              Scene.updateMat, Scene.addChild, Scene.updateNode, Scene.nodeOf]
            rw [alook_map_preserve, alook_map_preserve, alook_map_preserve,
              alook_map_preserve,
              alook_cons_ne _ _ _ _ hk0] <;>
              first
              | (intro q hq
                 simp [hq, hk0, hk1, hk2, hk3])
              | (intro q
                 split <;> rfl)
          · intro k hk
            have hk1 : ¬k = st.scene.fresh + 1 := by omega
            simp only [Scene.setGeomMaterial, Scene.updateGeom, Scene.createMaterialNamed,
              Scene.updateMat, Scene.addChild, Scene.updateNode, Scene.geomOf]
            rw [alook_map_preserve, alook_cons_ne _ _ _ _ hk1] <;>
              first
              | (intro q hq
                 simp [hq, hk1])
              | (intro q
                 split <;> rfl)
        · rename_i hgrey
          simp only [Option.some.injEq, Prod.mk.injEq] at hmid
          obtain ⟨hmat, hs7⟩ := hmid
          subst hs7
          subst hmat
          simp only [finishVisual, Option.some.injEq, Prod.mk.injEq] at heq
          obtain ⟨hr, hst⟩ := heq
          subst hr
          subst hst
          refine ⟨rfl, rfl, by omega, ?_, ⟨st.scene.fresh + 1, by omega, ?_,
            ?_, ⟨st.scene.fresh + 1 + 1, by omega, ?_, ?_, rfl, ?_, ?_⟩⟩, ?_, ?_⟩
          · simp only [Scene.setGeomMaterial, Scene.updateGeom, Scene.createMaterialNamed,
              Scene.updateMat, Scene.addChild, Scene.updateNode]
            omega
          · simp only [Scene.setGeomMaterial, Scene.updateGeom, Scene.createMaterialNamed,
              Scene.updateMat, Scene.addChild, Scene.updateNode]
            omega
          · simp only [Scene.setGeomMaterial, Scene.updateGeom, Scene.createMaterialNamed,
              Scene.updateMat, Scene.addChild, Scene.updateNode, Scene.nodeOf, List.map_cons,
              eq_self_iff_true, if_true]
            rw [alook_cons_self]
            exact ⟨_, rfl, rfl⟩
          · simp only [Scene.setGeomMaterial, Scene.updateGeom, Scene.createMaterialNamed,
              Scene.updateMat, Scene.addChild, Scene.updateNode]
            omega
          · simp only [Scene.setGeomMaterial, Scene.updateGeom, Scene.createMaterialNamed,
              Scene.updateMat, Scene.addChild, Scene.updateNode, Scene.geomOf, List.map_cons,
              eq_self_iff_true, if_true]
            rw [alook_cons_self]
            rfl
          · simp only [Scene.setGeomMaterial, Scene.updateGeom, Scene.createMaterialNamed,
              Scene.updateMat, Scene.addChild, Scene.updateNode, Scene.matOf, List.map_cons,
              eq_self_iff_true, if_true]
            rw [alook_cons_self]
            rfl
          · intro k hkm
            simp only [Scene.setGeomMaterial, Scene.updateGeom, Scene.createMaterialNamed,
              Scene.updateMat, Scene.addChild, Scene.updateNode, Scene.matOf]
            rw [alook_map_preserve, alook_cons_ne _ _ _ _ hkm] <;>
              first
              | (intro q hq
                 simp [hq, hkm])
              | (intro q
                 split <;> rfl)
          · intro k hk
            have hk0 : ¬k = st.scene.fresh := by omega
            have hk1 : ¬k = st.scene.fresh + 1 := by omega
            have hk2 : ¬k = st.scene.fresh + 1 + 1 := by omega
            have hk3 : ¬k = st.scene.fresh + 1 + 1 + 1 := by omega
            simp only [Scene.setGeomMaterial, Scene.updateGeom, Scene.createMaterialNamed,
              Scene.updateMat, Scene.addChild, Scene.updateNode, Scene.nodeOf]
            rw [alook_map_preserve, alook_map_preserve, alook_map_preserve,
              alook_map_preserve,
              alook_cons_ne _ _ _ _ hk0] <;>
              first
              | (intro q hq
                 simp [hq, hk0, hk1, hk2, hk3])
              | (intro q
                 split <;> rfl)
          · intro k hk
            have hk1 : ¬k = st.scene.fresh + 1 := by omega
            simp only [Scene.setGeomMaterial, Scene.updateGeom, Scene.createMaterialNamed,
              Scene.updateMat, Scene.addChild, Scene.updateNode, Scene.geomOf]
            rw [alook_map_preserve, alook_cons_ne _ _ _ _ hk1] <;>
              first
              | (intro q hq
                 simp [hq, hk1])
              | (intro q
                 split <;> rfl)
    all_goals
      rename_i heq
      split at heq <;>
        first
        | (simp_all [finishVisual]
           done)
        | (rename_i hmid
           split at hmid <;> simp_all [finishVisual])
  case some.sphere =>
    simp only [createVisual, h1, hp, h3, hm, Option.isSome_none,
      Bool.false_eq_true, if_false, loadGeometry, Scene.createGeom,
      Scene.createNode, Scene.setLocalPose, Scene.updateNode,
      isZeroPose_poseZero, if_true, Scene.addGeometry, Scene.setLocalScale,
      visualMaterial, GeomDesc.isMesh, Scene.materialByName]
    split
    · rename_i r st' heq
      split at heq
      · simp at heq
      · rename_i mat s7 hmid
        split at hmid
        · rename_i mref hgrey
          simp only [Option.some.injEq, Prod.mk.injEq] at hmid
          obtain ⟨hmat, hs7⟩ := hmid
          subst hs7
          subst hmat
          simp only [finishVisual, Option.some.injEq, Prod.mk.injEq] at heq
          obtain ⟨hr, hst⟩ := heq
          subst hr
          subst hst
          refine ⟨rfl, rfl, by omega, ?_, ⟨st.scene.fresh + 1, by omega, ?_,
            ?_, ?_⟩, ?_, ?_⟩
          · simp only [Scene.setGeomMaterial, Scene.updateGeom, Scene.createMaterialNamed,
              Scene.updateMat, Scene.addChild, Scene.updateNode]
            omega
          · simp only [Scene.setGeomMaterial, Scene.updateGeom, Scene.createMaterialNamed,
              Scene.updateMat, Scene.addChild, Scene.updateNode]
            omega
          · simp only [Scene.setGeomMaterial, Scene.updateGeom, Scene.createMaterialNamed,
              Scene.updateMat, Scene.addChild, Scene.updateNode, Scene.nodeOf, List.map_cons,
              eq_self_iff_true, if_true]
            rw [alook_cons_self]
            exact ⟨_, rfl, rfl⟩
          · refine ⟨?_, rfl, fun k => rfl⟩
            simp only [Scene.setGeomMaterial, Scene.updateGeom, Scene.createMaterialNamed,
              Scene.updateMat, Scene.addChild, Scene.updateNode, Scene.geomOf, List.map_cons,
              eq_self_iff_true, if_true]
            rw [alook_cons_self]
            rfl
          · intro k hk
            have hk0 : ¬k = st.scene.fresh := by omega
            have hk1 : ¬k = st.scene.fresh + 1 := by omega
            have hk2 : ¬k = st.scene.fresh + 1 + 1 := by omega
            have hk3 : ¬k = st.scene.fresh + 1 + 1 + 1 := by omega
            simp only [Scene.setGeomMaterial, Scene.updateGeom, Scene.createMaterialNamed,
              Scene.updateMat, Scene.addChild, Scene.updateNode, Scene.nodeOf]
            rw [alook_map_preserve, alook_map_preserve, alook_map_preserve,
              alook_map_preserve,
              alook_cons_ne _ _ _ _ hk0] <;>
              first
              | (intro q hq
                 simp [hq, hk0, hk1, hk2, hk3])
              | (intro q
                 split <;> rfl)
          · intro k hk
            have hk1 : ¬k = st.scene.fresh + 1 := by omega
            simp only [Scene.setGeomMaterial, Scene.updateGeom, Scene.createMaterialNamed,
              Scene.updateMat, Scene.addChild, Scene.updateNode, Scene.geomOf]
            rw [alook_map_preserve, alook_cons_ne _ _ _ _ hk1] <;>
              first
              | (intro q hq
                 simp [hq, hk1])
              | (intro q
                 split <;> rfl)
        · rename_i hgrey
          simp only [Option.some.injEq, Prod.mk.injEq] at hmid
          obtain ⟨hmat, hs7⟩ := hmid
          subst hs7
          subst hmat
          simp only [finishVisual, Option.some.injEq, Prod.mk.injEq] at heq
          obtain ⟨hr, hst⟩ := heq
          subst hr
          subst hst
          refine ⟨rfl, rfl, by omega, ?_, ⟨st.scene.fresh + 1, by omega, ?_,
            ?_, ⟨st.scene.fresh + 1 + 1, by omega, ?_, ?_, rfl, ?_, ?_⟩⟩, ?_, ?_⟩
          · simp only [Scene.setGeomMaterial, Scene.updateGeom, Scene.createMaterialNamed,
              Scene.updateMat, Scene.addChild, Scene.updateNode]
            omega
          · simp only [Scene.setGeomMaterial, Scene.updateGeom, Scene.createMaterialNamed,
              Scene.updateMat, Scene.addChild, Scene.updateNode]
            omega
          · simp only [Scene.setGeomMaterial, Scene.updateGeom, Scene.createMaterialNamed,
              Scene.updateMat, Scene.addChild, Scene.updateNode, Scene.nodeOf, List.map_cons,
              eq_self_iff_true, if_true]
            rw [alook_cons_self]
            exact ⟨_, rfl, rfl⟩
          · simp only [Scene.setGeomMaterial, Scene.updateGeom, Scene.createMaterialNamed,
              Scene.updateMat, Scene.addChild, Scene.updateNode]
            omega
          · simp only [Scene.setGeomMaterial, Scene.updateGeom, Scene.createMaterialNamed,
              Scene.updateMat, Scene.addChild, Scene.updateNode, Scene.geomOf, List.map_cons,
              eq_self_iff_true, if_true]
            rw [alook_cons_self]
            rfl
          · simp only [Scene.setGeomMaterial, Scene.updateGeom, Scene.createMaterialNamed,
              Scene.updateMat, Scene.addChild, Scene.updateNode, Scene.matOf, List.map_cons,
              eq_self_iff_true, if_true]
            rw [alook_cons_self]
            rfl
          · intro k hkm
            simp only [Scene.setGeomMaterial, Scene.updateGeom, Scene.createMaterialNamed,
              Scene.updateMat, Scene.addChild, Scene.updateNode, Scene.matOf]
            rw [alook_map_preserve, alook_cons_ne _ _ _ _ hkm] <;>
              first
              | (intro q hq
                 simp [hq, hkm])
              | (intro q
                 split <;> rfl)
          · intro k hk
            have hk0 : ¬k = st.scene.fresh := by omega
            have hk1 : ¬k = st.scene.fresh + 1 := by omega
            have hk2 : ¬k = st.scene.fresh + 1 + 1 := by omega
            have hk3 : ¬k = st.scene.fresh + 1 + 1 + 1 := by omega
            simp only [Scene.setGeomMaterial, Scene.updateGeom, Scene.createMaterialNamed,
              Scene.updateMat, Scene.addChild, Scene.updateNode, Scene.nodeOf]
            rw [alook_map_preserve, alook_map_preserve, alook_map_preserve,
              alook_map_preserve,
              alook_cons_ne _ _ _ _ hk0] <;>
              first
              | (intro q hq
                 simp [hq, hk0, hk1, hk2, hk3])
              | (intro q
                 split <;> rfl)
          · intro k hk
            have hk1 : ¬k = st.scene.fresh + 1 := by omega
            simp only [Scene.setGeomMaterial, Scene.updateGeom, Scene.createMaterialNamed,
              Scene.updateMat, Scene.addChild, Scene.updateNode, Scene.geomOf]
            rw [alook_map_preserve, alook_cons_ne _ _ _ _ hk1] <;>
              first
              | (intro q hq
                 simp [hq, hk1])
              | (intro q
                 split <;> rfl)
    all_goals
      rename_i heq
      split at heq <;>
        first
        | (simp_all [finishVisual]
           done)
        | (rename_i hmid
           split at hmid <;> simp_all [finishVisual])
  case some.plane =>
    by_cases hz : isZeroPose ⟨v3zero, from2AxesZ (v3normalized n)⟩ = true
    · simp only [createVisual, h1, hp, h3, hm, Option.isSome_none,
        Bool.false_eq_true, if_false, loadGeometry, Scene.createGeom,
        Scene.createNode, Scene.setLocalPose, Scene.updateNode,
        hz, if_true, Scene.addGeometry, Scene.setLocalScale,
        visualMaterial, GeomDesc.isMesh, Scene.materialByName]
      split
      · rename_i r st' heq
        split at heq
        · simp at heq
        · rename_i mat s7 hmid
          split at hmid
          · rename_i mref hgrey
            simp only [Option.some.injEq, Prod.mk.injEq] at hmid
            obtain ⟨hmat, hs7⟩ := hmid
            subst hs7
            subst hmat
            simp only [finishVisual, Option.some.injEq, Prod.mk.injEq] at heq
            obtain ⟨hr, hst⟩ := heq
            subst hr
            subst hst
            refine ⟨rfl, rfl, by omega, ?_, ⟨st.scene.fresh + 1, by omega, ?_,
              ?_, ?_⟩, ?_, ?_⟩
            · simp only [Scene.setGeomMaterial, Scene.updateGeom, Scene.createMaterialNamed,
                Scene.updateMat, Scene.addChild, Scene.updateNode]
              omega
            · simp only [Scene.setGeomMaterial, Scene.updateGeom, Scene.createMaterialNamed,
                Scene.updateMat, Scene.addChild, Scene.updateNode]
              omega
            · simp only [Scene.setGeomMaterial, Scene.updateGeom, Scene.createMaterialNamed,
                Scene.updateMat, Scene.addChild, Scene.updateNode, Scene.nodeOf, List.map_cons,
                eq_self_iff_true, if_true]
              rw [alook_cons_self]
              exact ⟨_, rfl, rfl⟩
            · refine ⟨?_, rfl, fun k => rfl⟩
              simp only [Scene.setGeomMaterial, Scene.updateGeom, Scene.createMaterialNamed,
                Scene.updateMat, Scene.addChild, Scene.updateNode, Scene.geomOf, List.map_cons,
                eq_self_iff_true, if_true]
              rw [alook_cons_self]
              rfl
            · intro k hk
              have hk0 : ¬k = st.scene.fresh := by omega
              have hk1 : ¬k = st.scene.fresh + 1 := by omega
              have hk2 : ¬k = st.scene.fresh + 1 + 1 := by omega
              have hk3 : ¬k = st.scene.fresh + 1 + 1 + 1 := by omega
              simp only [Scene.setGeomMaterial, Scene.updateGeom, Scene.createMaterialNamed,
                Scene.updateMat, Scene.addChild, Scene.updateNode, Scene.nodeOf]
              rw [alook_map_preserve, alook_map_preserve, alook_map_preserve,
                alook_map_preserve,
                alook_cons_ne _ _ _ _ hk0] <;>
                first
                | (intro q hq
                   simp [hq, hk0, hk1, hk2, hk3])
                | (intro q
                   split <;> rfl)
            · intro k hk
              have hk1 : ¬k = st.scene.fresh + 1 := by omega
              simp only [Scene.setGeomMaterial, Scene.updateGeom, Scene.createMaterialNamed,
                Scene.updateMat, Scene.addChild, Scene.updateNode, Scene.geomOf]
              rw [alook_map_preserve, alook_cons_ne _ _ _ _ hk1] <;>
                first
                | (intro q hq
                   simp [hq, hk1])
                | (intro q
                   split <;> rfl)
          · rename_i hgrey
            simp only [Option.some.injEq, Prod.mk.injEq] at hmid
            obtain ⟨hmat, hs7⟩ := hmid
            subst hs7
            subst hmat
            simp only [finishVisual, Option.some.injEq, Prod.mk.injEq] at heq
            obtain ⟨hr, hst⟩ := heq
            subst hr
            subst hst
            refine ⟨rfl, rfl, by omega, ?_, ⟨st.scene.fresh + 1, by omega, ?_,
              ?_, ⟨st.scene.fresh + 1 + 1, by omega, ?_, ?_, rfl, ?_, ?_⟩⟩, ?_, ?_⟩
            · simp only [Scene.setGeomMaterial, Scene.updateGeom, Scene.createMaterialNamed,
                Scene.updateMat, Scene.addChild, Scene.updateNode]
              omega
            · simp only [Scene.setGeomMaterial, Scene.updateGeom, Scene.createMaterialNamed,
                Scene.updateMat, Scene.addChild, Scene.updateNode]
              omega
            · simp only [Scene.setGeomMaterial, Scene.updateGeom, Scene.createMaterialNamed,
                Scene.updateMat, Scene.addChild, Scene.updateNode, Scene.nodeOf, List.map_cons,
                eq_self_iff_true, if_true]
              rw [alook_cons_self]
              exact ⟨_, rfl, rfl⟩
            · simp only [Scene.setGeomMaterial, Scene.updateGeom, Scene.createMaterialNamed,
                Scene.updateMat, Scene.addChild, Scene.updateNode]
              omega
            · simp only [Scene.setGeomMaterial, Scene.updateGeom, Scene.createMaterialNamed,
                Scene.updateMat, Scene.addChild, Scene.updateNode, Scene.geomOf, List.map_cons,
                eq_self_iff_true, if_true]
              rw [alook_cons_self]
              rfl
            · simp only [Scene.setGeomMaterial, Scene.updateGeom, Scene.createMaterialNamed,
                Scene.updateMat, Scene.addChild, Scene.updateNode, Scene.matOf, List.map_cons,
                eq_self_iff_true, if_true]
              rw [alook_cons_self]
              rfl
            · intro k hkm
              simp only [Scene.setGeomMaterial, Scene.updateGeom, Scene.createMaterialNamed,
                Scene.updateMat, Scene.addChild, Scene.updateNode, Scene.matOf]
              rw [alook_map_preserve, alook_cons_ne _ _ _ _ hkm] <;>
                first
                | (intro q hq
                   simp [hq, hkm])
                | (intro q
                   split <;> rfl)
            · intro k hk
              have hk0 : ¬k = st.scene.fresh := by omega
              have hk1 : ¬k = st.scene.fresh + 1 := by omega
              have hk2 : ¬k = st.scene.fresh + 1 + 1 := by omega
              have hk3 : ¬k = st.scene.fresh + 1 + 1 + 1 := by omega
              simp only [Scene.setGeomMaterial, Scene.updateGeom, Scene.createMaterialNamed,
                Scene.updateMat, Scene.addChild, Scene.updateNode, Scene.nodeOf]
              rw [alook_map_preserve, alook_map_preserve, alook_map_preserve,
                alook_map_preserve,
                alook_cons_ne _ _ _ _ hk0] <;>
                first
                | (intro q hq
                   simp [hq, hk0, hk1, hk2, hk3])
                | (intro q
                   split <;> rfl)
            · intro k hk
              have hk1 : ¬k = st.scene.fresh + 1 := by omega
              simp only [Scene.setGeomMaterial, Scene.updateGeom, Scene.createMaterialNamed,
                Scene.updateMat, Scene.addChild, Scene.updateNode, Scene.geomOf]
              rw [alook_map_preserve, alook_cons_ne _ _ _ _ hk1] <;>
                first
                | (intro q hq
                   simp [hq, hk1])
                | (intro q
                   split <;> rfl)
      all_goals
        rename_i heq
        split at heq
        all_goals
          first
          | (exact heq _ _ rfl)
          | (rename_i hmid
             split at hmid <;> exact Option.noConfusion hmid)
    · have hzf : isZeroPose ⟨v3zero, from2AxesZ (v3normalized n)⟩ = false := by
        simpa using hz
      simp only [createVisual, h1, hp, h3, hm, Option.isSome_none,
        Bool.false_eq_true, if_false, loadGeometry, Scene.createGeom,
        Scene.createNode, Scene.setLocalPose, Scene.updateNode,
        hzf, Scene.addGeometry, Scene.setLocalScale,
        visualMaterial, GeomDesc.isMesh, Scene.materialByName]
      split
      · rename_i r st' heq
        split at heq
        · simp at heq
        · rename_i mat s7 hmid
          split at hmid
          · rename_i mref hgrey
            simp only [Option.some.injEq, Prod.mk.injEq] at hmid
            obtain ⟨hmat, hs7⟩ := hmid
            subst hs7
            subst hmat
            simp only [finishVisual, Option.some.injEq, Prod.mk.injEq] at heq
            obtain ⟨hr, hst⟩ := heq
            subst hr
            subst hst
            refine ⟨rfl, rfl, by omega, ?_, ⟨st.scene.fresh + 1, by omega, ?_,
              ?_, ?_⟩, ?_, ?_⟩
            · simp only [Scene.setGeomMaterial, Scene.updateGeom, Scene.createMaterialNamed,
                Scene.updateMat, Scene.addChild, Scene.updateNode]
              omega
            · simp only [Scene.setGeomMaterial, Scene.updateGeom, Scene.createMaterialNamed,
                Scene.updateMat, Scene.addChild, Scene.updateNode]
              omega
            · simp only [Scene.setGeomMaterial, Scene.updateGeom, Scene.createMaterialNamed,
                Scene.updateMat, Scene.addChild, Scene.updateNode, Scene.nodeOf, List.map_cons,
                eq_self_iff_true, if_true]
              rw [alook_cons_self]
              exact ⟨_, rfl, rfl⟩
            · refine ⟨?_, rfl, fun k => rfl⟩
              simp only [Scene.setGeomMaterial, Scene.updateGeom, Scene.createMaterialNamed,
                Scene.updateMat, Scene.addChild, Scene.updateNode, Scene.geomOf, List.map_cons,
                eq_self_iff_true, if_true]
              rw [alook_cons_self]
              rfl
            · intro k hk
              have hk0 : ¬k = st.scene.fresh := by omega
              have hk1 : ¬k = st.scene.fresh + 1 := by omega
              have hk2 : ¬k = st.scene.fresh + 1 + 1 := by omega
              have hk3 : ¬k = st.scene.fresh + 1 + 1 + 1 := by omega
              simp only [Scene.setGeomMaterial, Scene.updateGeom, Scene.createMaterialNamed,
                Scene.updateMat, Scene.addChild, Scene.updateNode, Scene.nodeOf]
              rw [alook_map_preserve, alook_map_preserve, alook_map_preserve,
                alook_map_preserve,
                alook_cons_ne _ _ _ _ hk2, alook_map_preserve,
                alook_cons_ne _ _ _ _ hk0] <;>
                first
                | (intro q hq
                   simp [hq, hk0, hk1, hk2, hk3])
                | (intro q
                   split <;> rfl)
            · intro k hk
              have hk1 : ¬k = st.scene.fresh + 1 := by omega
              simp only [Scene.setGeomMaterial, Scene.updateGeom, Scene.createMaterialNamed,
                Scene.updateMat, Scene.addChild, Scene.updateNode, Scene.geomOf]
              rw [alook_map_preserve, alook_cons_ne _ _ _ _ hk1] <;>
                first
                | (intro q hq
                   simp [hq, hk1])
                | (intro q
                   split <;> rfl)
          · rename_i hgrey
            simp only [Option.some.injEq, Prod.mk.injEq] at hmid
            obtain ⟨hmat, hs7⟩ := hmid
            subst hs7
            subst hmat
            simp only [finishVisual, Option.some.injEq, Prod.mk.injEq] at heq
            obtain ⟨hr, hst⟩ := heq
            subst hr
            subst hst
            refine ⟨rfl, rfl, by omega, ?_, ⟨st.scene.fresh + 1, by omega, ?_,
              ?_, ⟨st.scene.fresh + 1 + 1 + 1, by omega, ?_, ?_, rfl, ?_, ?_⟩⟩, ?_, ?_⟩
            · simp only [Scene.setGeomMaterial, Scene.updateGeom, Scene.createMaterialNamed,
                Scene.updateMat, Scene.addChild, Scene.updateNode]
              omega
            · simp only [Scene.setGeomMaterial, Scene.updateGeom, Scene.createMaterialNamed,
                Scene.updateMat, Scene.addChild, Scene.updateNode]
              omega
            · simp only [Scene.setGeomMaterial, Scene.updateGeom, Scene.createMaterialNamed,
                Scene.updateMat, Scene.addChild, Scene.updateNode, Scene.nodeOf, List.map_cons,
                eq_self_iff_true, if_true]
              rw [alook_cons_self]
              exact ⟨_, rfl, rfl⟩
            · simp only [Scene.setGeomMaterial, Scene.updateGeom, Scene.createMaterialNamed,
                Scene.updateMat, Scene.addChild, Scene.updateNode]
              omega
            · simp only [Scene.setGeomMaterial, Scene.updateGeom, Scene.createMaterialNamed,
                Scene.updateMat, Scene.addChild, Scene.updateNode, Scene.geomOf, List.map_cons,
                eq_self_iff_true, if_true]
              rw [alook_cons_self]
              rfl
            · simp only [Scene.setGeomMaterial, Scene.updateGeom, Scene.createMaterialNamed,
                Scene.updateMat, Scene.addChild, Scene.updateNode, Scene.matOf, List.map_cons,
                eq_self_iff_true, if_true]
              rw [alook_cons_self]
              rfl
            · intro k hkm
              simp only [Scene.setGeomMaterial, Scene.updateGeom, Scene.createMaterialNamed,
                Scene.updateMat, Scene.addChild, Scene.updateNode, Scene.matOf]
              rw [alook_map_preserve, alook_cons_ne _ _ _ _ hkm] <;>
                first
                | (intro q hq
                   simp [hq, hkm])
                | (intro q
                   split <;> rfl)
            · intro k hk
              have hk0 : ¬k = st.scene.fresh := by omega
              have hk1 : ¬k = st.scene.fresh + 1 := by omega
              have hk2 : ¬k = st.scene.fresh + 1 + 1 := by omega
              have hk3 : ¬k = st.scene.fresh + 1 + 1 + 1 := by omega
              simp only [Scene.setGeomMaterial, Scene.updateGeom, Scene.createMaterialNamed,
                Scene.updateMat, Scene.addChild, Scene.updateNode, Scene.nodeOf]
              rw [alook_map_preserve, alook_map_preserve, alook_map_preserve,
                alook_map_preserve,
                alook_cons_ne _ _ _ _ hk2, alook_map_preserve,
                alook_cons_ne _ _ _ _ hk0] <;>
                first
                | (intro q hq
                   simp [hq, hk0, hk1, hk2, hk3])
                | (intro q
                   split <;> rfl)
            · intro k hk
              have hk1 : ¬k = st.scene.fresh + 1 := by omega
              simp only [Scene.setGeomMaterial, Scene.updateGeom, Scene.createMaterialNamed,
                Scene.updateMat, Scene.addChild, Scene.updateNode, Scene.geomOf]
              rw [alook_map_preserve, alook_cons_ne _ _ _ _ hk1] <;>
                first
                | (intro q hq
                   simp [hq, hk1])
                | (intro q
                   split <;> rfl)
      all_goals
        rename_i heq
        split at heq
        all_goals
          first
          | (exact heq _ _ rfl)
          | (rename_i hmid
             split at hmid <;> exact Option.noConfusion hmid)

/-- If a state differs from `st` only by a larger visuals map (one extra
binding) and the same world id, any parent id resolvable in `st` is still
resolvable. -/
theorem resolveParent_mono (st st' : SMState) (p i r : ℕ)
    (hw : st'.worldId = st.worldId) (hv : st'.visuals = aset st.visuals i r)
    (h : (resolveParent st p).isSome = true) :
    (resolveParent st' p).isSome = true := by
  simp only [resolveParent, hw, hv]
  simp only [resolveParent] at h
  by_cases hpw : p = st.worldId
  · simp [hpw]
  · simp only [hpw, if_false] at h ⊢
    by_cases hpi : p = i
    · subst hpi
      rw [alook_aset_self]
      simp
    · rw [alook_aset_ne _ _ _ _ hpi]
      exact h

/-- C7: when `CreateVisual` runs with no explicit material and non-mesh
geometry it uses the scene material named "ign-grey", creating it on first
use with ambient 0.3, diffuse 0.7, specular 1.0, roughness 0.2,
metalness 1.0; a second such visual receives the reference-identical cached
instance (the same material handle `mref`). -/
theorem C7_default_material_cached (st : SMState) (ff : String → Option String)
    (id1 id2 p1 p2 : ℕ) (v1 v2 : SdfVisual) (g1 g2 : GeomDesc) (pr1 : Option ℕ)
    (ha1 : alook st.visuals id1 = none) (ha2 : alook st.visuals id2 = none)
    (hne : ¬id2 = id1)
    (hp1 : resolveParent st p1 = some pr1)
    (hp2 : (resolveParent st p2).isSome = true)
    (hg1 : v1.geom = some g1) (hm1 : v1.material = none)
    (hb1 : isBasicShape g1 = true)
    (hg2 : v2.geom = some g2) (hm2 : v2.material = none)
    (hb2 : isBasicShape g2 = true)
    (hgrey : st.scene.materialByName "ign-grey" = none) :
    match createVisual st ff id1 v1 p1 with
    | some (some r1, st1) =>
        match createVisual st1 ff id2 v2 p2 with
        | some (some r2, st2) =>
            ∃ mref gr1 gr2,
              st1.scene.materialByName "ign-grey" = some mref ∧
              (∃ nd1, st2.scene.nodeOf r1 = some nd1 ∧ nd1.geoms = [gr1]) ∧
              (∃ nd2, st2.scene.nodeOf r2 = some nd2 ∧ nd2.geoms = [gr2]) ∧
              (st2.scene.geomOf gr1).map GeomObj.material = some (some mref) ∧
              (st2.scene.geomOf gr2).map GeomObj.material = some (some mref) ∧
              st2.scene.matOf mref = some greyMaterial
        | _ => False
    | _ => False := by
  have H1 := createVisual_default_run st ff id1 p1 v1 g1 pr1 ha1 hp1 hg1 hm1 hb1
  split
  · rename_i r1 st1 heq1
    simp only [heq1, hgrey] at H1
    obtain ⟨hw1, hv1, hr1l, hr1u,
      ⟨gr1, hg1l, hg1u, ⟨nd1, hnd1, hnd1g⟩,
        mref, hml, hmu, hgm1, hmn1, hmat1, hmfr1⟩, hnf1, hgf1⟩ := H1
    have ha2' : alook st1.visuals id2 = none := by
      rw [hv1, alook_aset_ne _ _ _ _ hne]
      exact ha2
    have hp2' : (resolveParent st1 p2).isSome = true :=
      resolveParent_mono st st1 p2 id1 r1 hw1 hv1 hp2
    obtain ⟨pr2, hpr2⟩ := Option.isSome_iff_exists.mp hp2'
    have hgrey1 : st1.scene.materialByName "ign-grey" = some mref := by
      simp only [Scene.materialByName, hmn1, alook_cons_self]
    have H2 := createVisual_default_run st1 ff id2 p2 v2 g2 pr2 ha2' hpr2 hg2 hm2 hb2
    split
    · rename_i r2 st2 heq2
      simp only [heq2, hgrey1] at H2
      obtain ⟨hw2, hv2, hr2l, hr2u,
        ⟨gr2, hg2l, hg2u, ⟨nd2, hnd2, hnd2g⟩, hgm2, hmn2, hmat2⟩,
        hnf2, hgf2⟩ := H2
      refine ⟨mref, gr1, gr2, hgrey1, ⟨nd1, ?_, hnd1g⟩,
        ⟨nd2, hnd2, hnd2g⟩, ?_, hgm2, ?_⟩
      · rw [hnf2 r1 hr1u]
        exact hnd1
      · rw [hgf2 gr1 hg1u]
        exact hgm1
      · rw [hmat2 mref]
        exact hmat1
    · rename_i hno
      rcases hcv : createVisual st1 ff id2 v2 p2 with (_ | ⟨(_ | r2), st2⟩)
      · rw [hcv] at H2
        exact H2
      · rw [hcv] at H2
        exact H2
      · exact hno r2 st2 hcv
  · rename_i hno
    rcases hcv : createVisual st ff id1 v1 p1 with (_ | ⟨(_ | r1), st1⟩)
    · rw [hcv] at H1
      exact H1
    · rw [hcv] at H1
      exact H1
    · exact hno r1 st1 hcv

/-- Witness for C7: from the fresh world, two visuals (ids 1 and 2) created
with box geometry and no material share the cached "ign-grey" material. -/
theorem C7_witness :
    (SMState.init 0).scene.materialByName "ign-grey" = none ∧
    (match createVisual (SMState.init 0) ffNone 1 exVisual 0 with
     | some (some r1, st1) =>
         match createVisual st1 ffNone 2 exVisual 0 with
         | some (some r2, st2) =>
             ∃ mref gr1 gr2,
               st1.scene.materialByName "ign-grey" = some mref ∧
               (∃ nd1, st2.scene.nodeOf r1 = some nd1 ∧ nd1.geoms = [gr1]) ∧
               (∃ nd2, st2.scene.nodeOf r2 = some nd2 ∧ nd2.geoms = [gr2]) ∧
               (st2.scene.geomOf gr1).map GeomObj.material = some (some mref) ∧
               (st2.scene.geomOf gr2).map GeomObj.material = some (some mref) ∧
               st2.scene.matOf mref = some greyMaterial
         | _ => False
     | _ => False) :=
  ⟨rfl, C7_default_material_cached (SMState.init 0) ffNone 1 2 0 0
    exVisual exVisual (GeomDesc.box ⟨1, 1, 1⟩) (GeomDesc.box ⟨1, 1, 1⟩) none
    rfl rfl (by decide) rfl rfl rfl rfl rfl rfl rfl rfl rfl⟩
